import Mathlib

/-!
Verification development for the hbai-mon repository (v3.1).

The Python sources `hbai-mon.py`, `hbai_ollama.py` and `hbai_executor.py` are
shallowly embedded below: pure fragments become Lean functions over `List Char`
and `String`, the interactive control loop becomes explicit state passing with
the three external collaborators (LLM chat endpoint, human approver, remote
command channel) modelled as oracles that are consumed step by step.  Python
text is modelled at the ASCII level (`str.lower`, `str.split`, `str.strip`,
`re` with `IGNORECASE` all act on ASCII data in this program).
-/

namespace Hbai

/-- Python's whitespace set for `str.split()`, `str.strip()` and the regex
class `\s`, restricted to ASCII: space, tab, newline, carriage return,
vertical tab, form feed. -/
def isPySpace (c : Char) : Bool :=
  c == ' ' || c == '\t' || c == '\n' || c == '\r' || c == '\x0b' || c == '\x0c'

/-- Python `str.lower()` on ASCII characters. -/
def asciiLower (c : Char) : Char :=
  if 'A' ≤ c ∧ c ≤ 'Z' then Char.ofNat (c.toNat + 32) else c

/-- Helper for `str.split()`: accumulate the current word (reversed) while
scanning. -/
def splitWsAux : List Char → List Char → List (List Char)
  | [], acc => if acc.isEmpty then [] else [acc.reverse]
  | c :: rest, acc =>
      if isPySpace c then
        if acc.isEmpty then splitWsAux rest [] else acc.reverse :: splitWsAux rest []
      else splitWsAux rest (c :: acc)

/-- Python `str.split()` with no argument: split on whitespace runs, dropping
empty fields. -/
def pySplitWs (s : List Char) : List (List Char) := splitWsAux s []

/-- The command normalisation of `_is_command_similar`
(`' '.join(cmd.lower().split())`): lowercase, collapse internal whitespace,
strip the ends. -/
def pyNorm (s : List Char) : List Char :=
  List.intercalate [' '] (pySplitWs (s.map asciiLower))

/-- Python `str.strip()` (ASCII whitespace). -/
def pyStrip (s : List Char) : List Char :=
  ((s.dropWhile isPySpace).reverse.dropWhile isPySpace).reverse

/-! ### difflib.SequenceMatcher (CPython), used by `_is_command_similar`

`SequenceMatcher(None, a, b).ratio()` is `2*M/(|a|+|b|)` where `M` is the
total size of the matching blocks found by the recursive
`find_longest_match` / `get_matching_blocks` algorithm.  With `isjunk=None`
the junk set is empty; `autojunk` only culls "popular" elements from the
index `b2j` when `len(b) >= 200`. -/

/-- Number of occurrences of `c` in `b`. -/
def countOcc (b : List Char) (c : Char) : Nat :=
  (b.filter (fun d => d == c)).length

/-- CPython autojunk: an element of `b` is popular when `len(b) >= 200` and it
occurs more than `len(b) // 100 + 1` times; popular elements are dropped from
`b2j`. -/
def isPopular (b : List Char) (c : Char) : Bool :=
  decide (200 ≤ b.length) && decide (b.length / 100 + 1 < countOcc b c)

/-- Indices (ascending) of the occurrences of `c`, starting at index `i`. -/
def occIdxAux (c : Char) : List Char → Nat → List Nat
  | [], _ => []
  | d :: rest, i =>
      if d == c then i :: occIdxAux c rest (i + 1) else occIdxAux c rest (i + 1)

/-- `b2j[c]`: ascending list of positions of `c` in `b`, empty for popular
elements (autojunk) and for absent elements. -/
def b2jList (b : List Char) (c : Char) : List Nat :=
  if isPopular b c then [] else occIdxAux c b 0

/-- A matching block `(i, j, size)` as returned by `find_longest_match`. -/
structure FLM where
  i : Nat
  j : Nat
  size : Nat
deriving DecidableEq, Repr

/-- `j2len.get(j, 0)` on the association list representing the dict. -/
def jlookup (l : List (Nat × Nat)) (j : Nat) : Nat :=
  match l.find? (fun p => p.1 == j) with
  | some p => p.2
  | none => 0

/-- The inner loop of `find_longest_match` over `b2j[a[i]]`: builds the new
`j2len` dict and updates the best block.  `j >= bhi` is a `break`. -/
def flmInner (i : Nat) (old : List (Nat × Nat)) (blo bhi : Nat) :
    List Nat → List (Nat × Nat) → FLM → List (Nat × Nat) × FLM
  | [], acc, best => (acc, best)
  | j :: js, acc, best =>
      if j < blo then flmInner i old blo bhi js acc best
      else if bhi ≤ j then (acc, best)
      else
        let k := if j = 0 then 1 else jlookup old (j - 1) + 1
        let best' := if best.size < k then FLM.mk (i + 1 - k) (j + 1 - k) k else best
        flmInner i old blo bhi js (acc ++ [(j, k)]) best'

/-- The outer loop of `find_longest_match` over `i in range(alo, ahi)`. -/
def flmOuter (a b : List Char) (blo bhi : Nat) :
    List Nat → List (Nat × Nat) → FLM → FLM
  | [], _, best => best
  | i :: is, j2len, best =>
      let r := flmInner i j2len blo bhi (b2jList b (a.getD i (Char.ofNat 0))) [] best
      flmOuter a b blo bhi is r.1 r.2

/-- Left extension of the best block (`bjunk` is empty, so the junk variants
of the while loops never fire). -/
def extLeft (a b : List Char) (alo blo : Nat) : Nat → FLM → FLM
  | 0, m => m
  | fuel + 1, m =>
      if alo < m.i ∧ blo < m.j ∧
          a.getD (m.i - 1) (Char.ofNat 0) = b.getD (m.j - 1) (Char.ofNat 0) then
        extLeft a b alo blo fuel (FLM.mk (m.i - 1) (m.j - 1) (m.size + 1))
      else m

/-- Right extension of the best block. -/
def extRight (a b : List Char) (ahi bhi : Nat) : Nat → FLM → FLM
  | 0, m => m
  | fuel + 1, m =>
      if m.i + m.size < ahi ∧ m.j + m.size < bhi ∧
          a.getD (m.i + m.size) (Char.ofNat 0) = b.getD (m.j + m.size) (Char.ofNat 0) then
        extRight a b ahi bhi fuel (FLM.mk m.i m.j (m.size + 1))
      else m

/-- `find_longest_match(alo, ahi, blo, bhi)`. -/
def findLongestMatch (a b : List Char) (alo ahi blo bhi : Nat) : FLM :=
  let base := flmOuter a b blo bhi (List.range' alo (ahi - alo)) [] (FLM.mk alo blo 0)
  let l := extLeft a b alo blo base.i base
  extRight a b ahi bhi ahi l

/-- Total size of the matching blocks of `get_matching_blocks` on the window
`[alo, ahi) × [blo, bhi)` (the merge step of `get_matching_blocks` preserves
the total size).  The fuel strictly exceeds the window length, which shrinks
at every recursive call, so it never runs out when seeded with
`a.length + 1`. -/
def matchesTotalAux (a b : List Char) : Nat → Nat → Nat → Nat → Nat → Nat
  | 0, _, _, _, _ => 0
  | fuel + 1, alo, ahi, blo, bhi =>
      let m := findLongestMatch a b alo ahi blo bhi
      if m.size = 0 then 0
      else
        (if alo < m.i ∧ blo < m.j then matchesTotalAux a b fuel alo m.i blo m.j else 0)
          + m.size
          + (if m.i + m.size < ahi ∧ m.j + m.size < bhi then
              matchesTotalAux a b fuel (m.i + m.size) ahi (m.j + m.size) bhi
            else 0)

/-- `M`: the total matched size for the full strings. -/
def matchesTotal (a b : List Char) : Nat :=
  matchesTotalAux a b (a.length + 1) 0 a.length 0 b.length

/-- `SequenceMatcher(None, a, b).ratio()` as an exact rational:
`2*M/(|a|+|b|)`, and `1` when both strings are empty (`_calculate_ratio`). -/
def seqRatio (a b : List Char) : ℚ :=
  if a.length + b.length = 0 then 1
  else (2 * matchesTotal a b : ℚ) / ((a.length : ℚ) + (b.length : ℚ))

/-- The comparison `similarity > threshold` of `_is_command_similar` with the
fixed threshold `0.7`, in exact arithmetic: `2M/T > 7/10` iff `7*T < 20*M`.
The Python comparison is on IEEE doubles, where both `2.0*M/T` and the
literal `0.7` are correctly rounded; the two comparisons agree for every
`T < 10^15`, far beyond any command length. -/
def ratioGtThreshold (a b : List Char) : Bool :=
  let T := a.length + b.length
  if T = 0 then true else decide (7 * T < 20 * matchesTotal a b)

/-- `InteractiveAIAnalyzer._is_command_similar` (hbai_ollama.py:90-107) at its
call-site threshold 0.7: normalise the candidate and each previously executed
command, and report whether the ratio strictly exceeds the threshold against
any of them. -/
def isCommandSimilar (newCommand : List Char) (existingCommands : List (List Char)) : Bool :=
  let newNorm := pyNorm newCommand
  existingCommands.any (fun e => ratioGtThreshold newNorm (pyNorm e))

/-! ### `_parse_interactive_response` (hbai_ollama.py:533-700)

Each Python regular expression of the parser is translated to a dedicated
search function with the same leftmost/greedy/lazy backtracking semantics
(derived by hand for the specific pattern; `IGNORECASE` is ASCII case
folding, `$` without `MULTILINE` matches at the end of the string or just
before a final newline). -/

/-- Case-insensitive prefix test; the pattern is given lowercased. -/
def startsWithCI : List Char → List Char → Bool
  | [], _ => true
  | _ :: _, [] => false
  | p :: ps, c :: cs => (asciiLower c == p) && startsWithCI ps cs

/-- Index of the first (leftmost) case-insensitive occurrence of `pat`. -/
def findCI (pat : List Char) : List Char → Option Nat
  | [] => if startsWithCI pat [] then some 0 else none
  | c :: t =>
      if startsWithCI pat (c :: t) then some 0
      else (findCI pat t).map (· + 1)

def openMarker : List Char := "<think>".data
def closeMarker : List Char := "</think>".data
def thinkWord : List Char := "think".data

/-- `re.sub(r'<think>.*?</think>', '', response, flags=DOTALL|IGNORECASE)`:
remove each leftmost-shortest paired reasoning block, continuing after each
removal.  An opening marker with no closing marker anywhere after it is not
a match (and then no later opening marker can match either). -/
def stripClosedA : Nat → List Char → List Char
  | 0, s => s
  | _ + 1, [] => []
  | fuel + 1, c :: rest =>
      if startsWithCI openMarker (c :: rest) then
        match findCI closeMarker (rest.drop 6) with
        | some k => stripClosedA fuel ((rest.drop 6).drop (k + 8))
        | none => c :: stripClosedA fuel rest
      else c :: stripClosedA fuel rest

/-- Fuel wrapper: every step of `stripClosedA` consumes at least one
character, so `length + 1` fuel never runs out. -/
def stripClosed (s : List Char) : List Char := stripClosedA (s.length + 1) s

/-- `re.sub(r'<think>.*$', '', response, flags=DOTALL|IGNORECASE)`: truncate
at the first remaining (unclosed) opening marker. -/
def stripUnclosed : List Char → List Char
  | [] => []
  | c :: rest =>
      if startsWithCI openMarker (c :: rest) then [] else c :: stripUnclosed rest

/-- `re.sub(r'</?think[^>]*>', '', response, flags=IGNORECASE)`: remove
leftover marker fragments; `[^>]*>` runs to the first `>` after the word,
and without such a `>` there is no match. -/
def stripLeftoverA : Nat → List Char → List Char
  | 0, s => s
  | _ + 1, [] => []
  | fuel + 1, c :: rest =>
      if c = '<' then
        let slash := if rest.headD (Char.ofNat 0) = '/' then 1 else 0
        let t := rest.drop slash
        if startsWithCI thinkWord t then
          match (t.drop 5).findIdx? (fun d => d == '>') with
          | some g => stripLeftoverA fuel (rest.drop (slash + 5 + (g + 1)))
          | none => c :: stripLeftoverA fuel rest
        else c :: stripLeftoverA fuel rest
      else c :: stripLeftoverA fuel rest

def stripLeftover (s : List Char) : List Char := stripLeftoverA (s.length + 1) s

/-- Index of the last newline inside `w`, if any. -/
def lastNl (w : List Char) : Option Nat :=
  (w.reverse.findIdx? (fun d => d == '\n')).map (fun k => w.length - 1 - k)

/-- `re.sub(r'\n\s*\n', '\n', response)`: a match starts at a newline whose
following maximal whitespace run contains another newline; greedy `\s*`
backtracks to the last newline of the run, and scanning continues after the
match. -/
def collapseBlankA : Nat → List Char → List Char
  | 0, s => s
  | _ + 1, [] => []
  | fuel + 1, c :: rest =>
      if c = '\n' then
        let w := rest.takeWhile isPySpace
        match lastNl w with
        | some j => '\n' :: collapseBlankA fuel (rest.drop (j + 1))
        | none => c :: collapseBlankA fuel rest
      else c :: collapseBlankA fuel rest

def collapseBlank (s : List Char) : List Char := collapseBlankA (s.length + 1) s

/-- The whole reasoning-stripping prelude of `_parse_interactive_response`
(hbai_ollama.py:552-566), ending with `str.strip()`. -/
def stripThink (response : List Char) : List Char :=
  pyStrip (collapseBlank (stripLeftover (stripUnclosed (stripClosed response))))

/-- Leftmost-match search: try the position matcher `f` at each suffix. -/
def reFirst {α : Type} (f : List Char → Option α) : List Char → Option α
  | [] => f []
  | c :: t =>
      match f (c :: t) with
      | some r => some r
      | none => reFirst f t

def dcLabel : List Char := "diagnosis_complete:".data
def trueWord : List Char := "true".data
def rcLabel : List Char := "root_cause:".data
def ltsLabel : List Char := "long_term_solution:".data
def iaLabel : List Char := "immediate_actions:".data
def pmLabel : List Char := "preventive_measures:".data
def ctiLabel : List Char := "commands_to_implement:".data
def targetWord : List Char := "target".data
def hostLabel : List Char := "host:".data
def nextWord : List Char := "next".data
def commandLabel : List Char := "command:".data
def explLabel : List Char := "explanation:".data

/-- `re.search(r'DIAGNOSIS_COMPLETE:\s*true', response, IGNORECASE)`: after
the label, greedy `\s*` must stop exactly at the end of the whitespace run
(no whitespace char can start `true`). -/
def tryDiagComplete (s : List Char) : Option Unit :=
  if startsWithCI dcLabel s then
    if startsWithCI trueWord ((s.drop dcLabel.length).dropWhile isPySpace) then some ()
    else none
  else none

def hasDiagnosisComplete (s : List Char) : Bool :=
  (reFirst tryDiagComplete s).isSome

/-- Lazy capture `(.+?)` under `DOTALL` in front of a stop condition: the
shortest nonempty prefix after which `stop` holds on the remainder. -/
def captureLazy (stop : List Char → Bool) : List Char → List Char
  | [] => []
  | c :: v => if stop v then [c] else c :: captureLazy stop v

/-- Stop condition `(?=D1|…|Dn|$)` for the conclusion-field patterns: a
delimiter label starts here, or `$` (end of string / just before a final
newline). -/
def stopOKDollar (stops : List (List Char)) (v : List Char) : Bool :=
  v.isEmpty || (v == ['\n']) || stops.any (fun d => startsWithCI d v)

/-- Position matcher for `LABEL:\s*(.+?)(?=STOPS|$)` with `DOTALL|IGNORECASE`.
When only whitespace follows the label, Python still matches with a
whitespace-only capture, which strips to the same empty field value as the
`none` returned here. -/
def blockCapture (label : List Char) (stops : List (List Char)) (s : List Char) :
    Option (List Char) :=
  if startsWithCI label s then
    let u := (s.drop label.length).dropWhile isPySpace
    if u.isEmpty then none else some (captureLazy (stopOKDollar stops) u)
  else none

/-- `match.group(1).strip() if match else ''` for a conclusion field. -/
def extractField (label : List Char) (stops : List (List Char)) (s : List Char) : List Char :=
  match reFirst (blockCapture label stops) s with
  | some v => pyStrip v
  | none => []

/-- Position matcher for `COMMANDS_TO_IMPLEMENT:(.*?)$` with
`DOTALL|IGNORECASE`: the capture runs to the end of the string, stopping
just before a final newline if there is one. -/
def tryCommandsSection (s : List Char) : Option (List Char) :=
  if startsWithCI ctiLabel s then
    let u := s.drop ctiLabel.length
    if u.getLast? = some '\n' then some u.dropLast else some u
  else none

/-- `re.findall(r'^\d+\.\s*(.+?)$', text, MULTILINE)`: at a line start,
digits then a period, then greedy `\s*` (which may cross newlines), then a
lazy non-newline capture up to the line end.  The boolean flag records
whether the current position is a line start. -/
def numberedAux : Nat → List Char → Bool → List (List Char)
  | 0, _, _ => []
  | _ + 1, [], _ => []
  | fuel + 1, c :: rest, atStart =>
      if atStart ∧ c.isDigit then
        let d := (c :: rest).takeWhile Char.isDigit
        match (c :: rest).drop d.length with
        | '.' :: after =>
            let v := after.dropWhile isPySpace
            if v.isEmpty then []
            else
              let item := v.takeWhile (fun ch => ch ≠ '\n')
              item :: numberedAux fuel (v.drop item.length) false
        | _ => numberedAux fuel rest (c = '\n')
      else numberedAux fuel rest (c = '\n')

/-- The numbered implementation commands:
`[line.strip() for line in cmd_lines if line.strip()]`.  Every step of
`numberedAux` consumes at least one character, so fuel `text.length + 1`
never runs out before the text does. -/
def numberedItems (text : List Char) : List (List Char) :=
  ((numberedAux (text.length + 1) text true).map pyStrip).filter (fun l => !l.isEmpty)

def backtickChar : Char := Char.ofNat 96

/-- Markup characters `[*`#]` tolerated after `TARGET_HOST:`. -/
def isMarkupTGT (c : Char) : Bool :=
  c == '*' || c == backtickChar || c == '#'

/-- Position matcher for `TARGET[_\s]*HOST:\s*[*`#]*\s*(\S+)` (IGNORECASE).
Greedy `[_\s]*` must stop exactly at `HOST:`; when the string ends right
after the markup run, Python backtracks and captures the run's last markup
character. -/
def tryTargetHost (s : List Char) : Option (List Char) :=
  if startsWithCI targetWord s then
    let u := s.drop targetWord.length
    let u2 := u.dropWhile (fun c => c == '_' || isPySpace c)
    if startsWithCI hostLabel u2 then
      let v := u2.drop hostLabel.length
      let v1 := v.dropWhile isPySpace
      let stars := v1.takeWhile isMarkupTGT
      let v3 := (v1.drop stars.length).dropWhile isPySpace
      if v3.isEmpty then
        match stars.getLast? with
        | some c => some [c]
        | none => none
      else some (v3.takeWhile (fun c => !isPySpace c))
    else none
  else none

/-- Markup characters `[*`]` tolerated after `NEXT_COMMAND:`. -/
def isMarkupCMD (c : Char) : Bool :=
  c == '*' || c == backtickChar

/-- Stop condition `(?:[*`]*\s*(?:\n|$))` of the first `NEXT_COMMAND`
pattern: after a run of markup characters, the following whitespace run
contains a newline or reaches the end of the string. -/
def cmdStopOK (v : List Char) : Bool :=
  let v1 := v.dropWhile isMarkupCMD
  (v1.takeWhile isPySpace).any (fun c => c == '\n') || (v1.dropWhile isPySpace).isEmpty

/-- Position matcher for
`NEXT[_\s]*COMMAND:\s*[*`]*\s*(.+?)(?:[*`]*\s*(?:\n|$))` with
`IGNORECASE|DOTALL`. -/
def tryNextCommand (s : List Char) : Option (List Char) :=
  if startsWithCI nextWord s then
    let u := s.drop nextWord.length
    let u2 := u.dropWhile (fun c => c == '_' || isPySpace c)
    if startsWithCI commandLabel u2 then
      let v := u2.drop commandLabel.length
      let v1 := v.dropWhile isPySpace
      let v3 := (v1.dropWhile isMarkupCMD).dropWhile isPySpace
      if v3.isEmpty then none else some (captureLazy cmdStopOK v3)
    else none
  else none

/-- Position matcher for the second attempt
`NEXT[_\s]*COMMAND:\s*\n\s*(.+?)(?:\n|$)` (IGNORECASE, no DOTALL): the
whitespace run after the label must contain a newline, and the capture is
the first line of what follows it. -/
def tryNextCommand2 (s : List Char) : Option (List Char) :=
  if startsWithCI nextWord s then
    let u := s.drop nextWord.length
    let u2 := u.dropWhile (fun c => c == '_' || isPySpace c)
    if startsWithCI commandLabel u2 then
      let v := u2.drop commandLabel.length
      if (v.takeWhile isPySpace).any (fun c => c == '\n') then
        let v1 := v.dropWhile isPySpace
        if v1.isEmpty then none
        else some (v1.takeWhile (fun c => c ≠ '\n'))
      else none
    else none
  else none

/-- Markup characters `[*-]` tolerated after `EXPLANATION:`. -/
def isMarkupEXP (c : Char) : Bool :=
  c == '*' || c == '-'

/-- Stop condition `(?:\n\n|\n-|\n\*|TARGET_HOST:|NEXT_COMMAND:|$)` of the
explanation pattern. -/
def expStopOK (v : List Char) : Bool :=
  startsWithCI "\n\n".data v || startsWithCI "\n-".data v || startsWithCI "\n*".data v ||
    startsWithCI "target_host:".data v || startsWithCI "next_command:".data v ||
    v.isEmpty || (v == ['\n'])

/-- Position matcher for
`EXPLANATION:\s*[*-]*\s*(.+?)(?:\n\n|\n-|\n\*|TARGET_HOST:|NEXT_COMMAND:|$)`
with `DOTALL|IGNORECASE`. -/
def tryExplanation (s : List Char) : Option (List Char) :=
  if startsWithCI explLabel s then
    let v := s.drop explLabel.length
    let v1 := v.dropWhile isPySpace
    let v3 := (v1.dropWhile isMarkupEXP).dropWhile isPySpace
    if v3.isEmpty then none else some (captureLazy expStopOK v3)
  else none

/-- First index `m ≥ 1` (counting from `idx`) at which `**` starts, with no
newline among the skipped characters: the lazy inner capture of
`\*\*(.+?)\*\*`. -/
def boldCloseAux : List Char → Nat → Option Nat
  | [], _ => none
  | c :: v, idx =>
      if 1 ≤ idx ∧ c = '*' ∧ v.headD (Char.ofNat 0) = '*' then some idx
      else if c = '\n' then none
      else boldCloseAux v (idx + 1)

/-- `re.sub(r'\*\*(.+?)\*\*', r'\1', x)`: unwrap bold markers, leftmost and
shortest first; the replacement is not rescanned. -/
def subBoldA : Nat → List Char → List Char
  | 0, s => s
  | _ + 1, [] => []
  | fuel + 1, c :: v =>
      if c = '*' ∧ v.headD (Char.ofNat 0) = '*' then
        match boldCloseAux v.tail 0 with
        | some m => v.tail.take m ++ subBoldA fuel (v.tail.drop (m + 2))
        | none => c :: subBoldA fuel v
      else c :: subBoldA fuel v

def subBold (s : List Char) : List Char := subBoldA (s.length + 1) s

/-- The explanation cleanup (hbai_ollama.py:680-681):
`re.sub(r'^[*-]\s+', '', e)` then the bold unwrapping. -/
def cleanExplanation (e : List Char) : List Char :=
  let e1 :=
    match e with
    | c :: d :: rest =>
        if (c = '*' ∨ c = '-') ∧ isPySpace d then (d :: rest).dropWhile isPySpace
        else e
    | _ => e
  subBold e1

/-- Strip the characters satisfying `p` from both ends. -/
def stripSet (p : Char → Bool) (s : List Char) : List Char :=
  ((s.dropWhile p).reverse.dropWhile p).reverse

/-- The markup set of `command.strip('`*_#')`. -/
def cmdMarkup (c : Char) : Bool :=
  c == backtickChar || c == '*' || c == '_' || c == '#'

/-- The markup set of `target_host.rstrip('*`#_')`. -/
def tgtMarkup (c : Char) : Bool :=
  c == '*' || c == backtickChar || c == '#' || c == '_'

/-- Strip the characters satisfying `p` from the right end only. -/
def rstripSet (p : Char → Bool) (s : List Char) : List Char :=
  (s.reverse.dropWhile p).reverse

/-- The typed image of the result dict of `_parse_interactive_response` and
`get_next_diagnostic_command`.  A key that a given Python dict does not
carry is represented by the default its consumers read through `.get`:
`done` ↦ `false`, `command` ↦ `""`, optional strings ↦ `none`.  The
`final_analysis` / `recommended_actions` aliases duplicate `root_cause` /
`implementation_commands` and are not repeated. -/
structure AIResult where
  success : Bool
  done : Bool
  command : String
  target_host : Option String
  explanation : String
  root_cause : String
  long_term_solution : String
  immediate_actions : String
  preventive_measures : String
  implementation_commands : List String
  error : Option String
  raw_response : Option String
deriving DecidableEq, Repr

/-- The parse-failure dict (`success=False`) with the given error message and
the (already think-stripped) response truncated to 500 characters. -/
def failureResult (msg : String) (r : List Char) : AIResult :=
  { success := false, done := false, command := "", target_host := none, explanation := "",
    root_cause := "", long_term_solution := "", immediate_actions := "",
    preventive_measures := "", implementation_commands := [],
    error := some msg, raw_response := some (String.mk (r.take 500)) }

/-- `InteractiveAIAnalyzer._parse_interactive_response` (hbai_ollama.py:533-700). -/
def parseInteractiveResponse (response : String) : AIResult :=
  let r := stripThink response.data
  if r.isEmpty then failureResult "AI only provided reasoning without answer" r
  else if hasDiagnosisComplete r then
    { success := true, done := true, command := "", target_host := none, explanation := "",
      root_cause := String.mk (extractField rcLabel [ltsLabel] r),
      long_term_solution :=
        String.mk (extractField ltsLabel [iaLabel, pmLabel, ctiLabel] r),
      immediate_actions := String.mk (extractField iaLabel [pmLabel, ctiLabel] r),
      preventive_measures := String.mk (extractField pmLabel [ctiLabel] r),
      implementation_commands :=
        (match reFirst tryCommandsSection r with
          | some t => (numberedItems t).map String.mk
          | none => []),
      error := none, raw_response := some (String.mk r) }
  else
    let target_host :=
      (reFirst tryTargetHost r).map (fun t => String.mk (rstripSet tgtMarkup (pyStrip t)))
    let cmdMatch :=
      match reFirst tryNextCommand r with
      | some g => some g
      | none => reFirst tryNextCommand2 r
    match cmdMatch with
    | some g =>
        let command := pyStrip ((stripSet cmdMarkup (pyStrip g)).takeWhile (fun c => c ≠ '\n'))
        if command.isEmpty then failureResult "Could not parse Ollama response" r
        else
          let explanation :=
            match reFirst tryExplanation r with
            | some e => cleanExplanation (pyStrip e)
            | none => []
          { success := true, done := false, command := String.mk command,
            target_host := target_host, explanation := String.mk explanation,
            root_cause := "", long_term_solution := "", immediate_actions := "",
            preventive_measures := "", implementation_commands := [],
            error := none, raw_response := none }
    | none => failureResult "Could not parse Ollama response" r

/-! ### Conversation building: `_build_conversation_messages` (hbai_ollama.py:191-379)

The prompt text blocks are the source's f-string literals split at their
interpolation holes (`{'='*80}` is expanded).  The numeric fields of the
problem context are the string renderings that Python interpolates; they are
produced upstream from the alert record and carried here opaquely. -/

def sysPart0 : String := "You are an expert Linux systems administrator conducting interactive diagnosis on a home infrastructure.\n\nINFRASTRUCTURE OVERVIEW:\n"

def sysPart1 : String := "\n\nRESPONSE RULES:\n1. Suggest exactly ONE command per response - no more, no less\n2. Wait for the command output before suggesting the next command\n3. You will receive the history of all previously executed commands and their outputs\n4. You MUST execute at least "

def sysPart2 : String := " diagnostic commands before concluding\n5. If more commands are needed after "

def sysPart3 : String := ", continue until you have enough information\n6. NEVER repeat a command that has already been executed\n7. NEVER suggest minor variations of previous commands (e.g., changing head -20 to head -10)\n8. Each command should explore a DIFFERENT diagnostic angle\n\nCOMMAND REQUIREMENTS:\n1. All commands must be READ-ONLY (no rm, delete, truncate, write operations)\n2. Commands must be COMPLETE and EXECUTABLE - no placeholders like <container_id> or <path>\n3. If you need specific IDs or paths, first suggest a command to discover them\n4. Permission errors on 'lost+found' directories are NORMAL - ignore them\n5. You may use backticks (`) in MySQL queries for column/table identifiers - they will be escaped automatically\n\nMULTI-HOST DIAGNOSIS:\n1. You can run commands on ANY host in the infrastructure - specify TARGET_HOST\n2. For containers/VMs with issues, also consider checking the hypervisor (hbpm01)\n3. For network equipment, NAS, or appliances, access via jumpserver (hbcsrv14)\n4. Consider checking related services (e.g., if MySQL disk is full, check which apps use that database)\n\nMYSQL COMMANDS:\n- Use -p WITHOUT a password value - credentials are auto-injected\n- Correct: mysql -u root -p -e \"SELECT ...\"\n- Correct: mysqladmin -u root -p status\n- WRONG: mysql -u root -p'password' -e \"...\"\n- You CAN use backticks for MySQL identifiers (they are escaped automatically)\n- Example: SELECT table_schema AS `Database`, SUM(data_length) AS `Size` FROM information_schema.tables\n\nDIAGNOSTIC GOAL:\nYour goal is to find ROOT CAUSES and propose LONG-TERM SOLUTIONS, not quick patches.\n\nFor example, if a MySQL partition is full:\n- Identify WHICH database is consuming the most space\n- Determine WHY it is growing (logs, old data, lack of retention policy)\n- Propose HOUSEKEEPING solutions (log rotation, data archival, retention policies, scheduled cleanup jobs)\n- Do NOT just suggest deleting files as a one-time fix\n\nAVAILABLE DIAGNOSTIC TOOLS:\n- Disk: du, find, ncdu, ls, df, lsof\n- Processes: ps, top, lsof, /proc\n- Logs: journalctl, /var/log/*, dmesg\n- Docker: docker ps, docker stats, docker system df\n- Proxmox (on hbpm01): pct exec, pvesm, zfs list, lvs\n- Services: systemctl, service\n- Network: ss, netstat, ip\n- Filesystem: mount, findmnt, tune2fs, xfs_info\n- MySQL: SHOW BINARY LOGS, SHOW VARIABLES, information_schema queries\n\nOUTPUT FORMAT:\nUse PLAIN TEXT only - no Markdown (no **, no ```, no ###, no bullet points)\n\nFor each diagnostic step, respond with exactly:\nTARGET_HOST: hostname.internal.boehmecke.org\nNEXT_COMMAND: complete executable command\nEXPLANATION: brief reason why this helps\n\nWhen you have gathered enough information (minimum "

def sysPart4 : String := " commands), respond with:\nDIAGNOSIS_COMPLETE: true\nROOT_CAUSE: what is causing the problem and why\nLONG_TERM_SOLUTION: permanent fix with implementation steps\nIMMEDIATE_ACTIONS: if urgent, what to do right now\nPREVENTIVE_MEASURES: how to prevent this in the future\nCOMMANDS_TO_IMPLEMENT: specific commands to implement the solution (numbered list)"

/-- The 80-character `=` separator line of the prompt (hbai_ollama.py:244). -/
def sepLine : String := String.mk (List.replicate 80 '=')

def promptHead : String :=
  "\n" ++ sepLine ++ "\nPREVIOUSLY EXECUTED COMMANDS AND RESULTS:\n" ++ sepLine ++ "\n"

def tailPart0 : String := "\n" ++ sepLine ++ "\n\nPROGRESS: "

def tailPart1 : String := "/"

def tailPart2 : String := " commands executed (minimum required: "

def tailPart3 : String := ")\n\nCURRENT PROBLEM:\n- Alerting Host: "

def tailPart4 : String := "\n- Mount Point: "

def tailPart5 : String := "\n- Usage: "

def tailPart6 : String := "% ("

def tailPart7 : String := "GB used / "

def tailPart8 : String := "GB total)\n- Free Space: "

def tailPart9 : String := "GB\n\nYOUR TASK:\nAnalyze the information gathered so far and suggest the NEXT SINGLE diagnostic command.\nFocus on finding the ROOT CAUSE, not just symptoms.\nThink about what LONG-TERM SOLUTION would prevent this problem from recurring.\n\nRemember:\n- Suggest exactly ONE command\n- Use a DIFFERENT approach than previous commands\n- "

def tailPart10 : String := "\n\nRESPOND WITH:\nTARGET_HOST: hostname.internal.boehmecke.org\nNEXT_COMMAND: single complete executable command\nEXPLANATION: why this command helps find the root cause\n"

def orBlock : String := "\nOR if you have identified the root cause:\nDIAGNOSIS_COMPLETE: true\nROOT_CAUSE: what is causing the problem and why it happened\nLONG_TERM_SOLUTION: permanent fix with specific implementation steps\nIMMEDIATE_ACTIONS: urgent steps if disk is critically full (optional)\nPREVENTIVE_MEASURES: how to prevent recurrence (monitoring, alerts, automation)\nCOMMANDS_TO_IMPLEMENT: numbered list of commands to implement the solution\n"

/-- The analyzer configuration read by `InteractiveAIAnalyzer.__init__`:
`_build_conversation_messages` reads only `infrastructure` and
`min_commands_required`; the other fields configure the transport and are
carried to state the frame property. -/
structure Analyzer where
  infrastructure : String
  min_commands_required : Nat
  model : String
  api_key : String
  timeout : Nat
deriving DecidableEq, Repr

inductive Role
  | system
  | user
  | assistant
deriving DecidableEq, Repr

/-- One role-tagged chat message. -/
structure Message where
  role : Role
  content : String
deriving DecidableEq, Repr

/-- The `problem_context` dict built in `process_alert` (hbai-mon.py:372-379);
the numeric entries are modelled by the strings Python renders for them. -/
structure ProblemContext where
  hostname : String
  mount_point : String
  usage_percent : String
  used_gb : String
  total_gb : String
  free_gb : String
deriving DecidableEq, Repr

/-- One `conversation_history` entry as appended by `process_alert`:
a rejected turn carries `command`, `target_host`, `executed=False`, `reason`;
an executed turn carries `command`, `target_host`, `executed=True`, `stdout`,
`stderr`, `exit_code`, `success`.  A key a given dict does not carry is
`none` (its consumers read it through `.get` with a default). -/
structure HistoryItem where
  command : String
  target_host : Option String
  executed : Bool
  reason : Option String
  stdout : Option String
  stderr : Option String
  exit_code : Option Int
  success : Option Bool
deriving DecidableEq, Repr

/-- Python's rendering of `item.get('target_host', ...)`: the key is always
present in history entries, so the `.get` default is dead code; a `None`
value renders as `"None"` in the f-strings that use it. -/
def renderTarget : Option String → String
  | some t => t
  | none => "None"

/-- `[:n]` on a Python string. -/
def pyTake (n : Nat) (s : String) : String :=
  String.mk (s.data.take n)

/-- The number of characters of a Python string (`len`). -/
def pyLen (s : String) : Nat := s.data.length

/-- The `executed_cmds` record built per executed history item
(hbai_ollama.py:283-295): summary, output truncated to 1000 characters, and
the success flag. -/
structure CmdInfo where
  summary : String
  output : String
  success : Bool
deriving DecidableEq, Repr

def mkCmdInfo (item : HistoryItem) : CmdInfo :=
  let target := renderTarget item.target_host
  let output0 := item.stdout.getD ""
  let output := if 1000 < pyLen output0 then pyTake 1000 output0 ++ "\n... (truncated)" else output0
  { summary := target ++ ": " ++ item.command, output := output,
    success := item.success.getD false }

/-- The `user` message echoing an executed command (hbai_ollama.py:298-301). -/
def userExecMsg (item : HistoryItem) : Message :=
  { role := Role.user,
    content := "I executed on " ++ renderTarget item.target_host ++ ": " ++ item.command }

/-- The `assistant` message carrying the execution result
(hbai_ollama.py:303-314). -/
def assistResultMsg (item : HistoryItem) : Message :=
  { role := Role.assistant,
    content :=
      if item.success.getD false then
        "Output:\n" ++ pyTake 3000 (item.stdout.getD "") ++
          (if 3000 < pyLen (item.stdout.getD "") then "\n... (truncated)" else "")
      else "Error: " ++ item.stderr.getD "Unknown error" }

/-- The single pass over the history that accumulates `executed_cmds` and the
history message pairs (hbai_ollama.py:277-314). -/
def histPass (history : List HistoryItem) : List CmdInfo × List Message :=
  history.foldl
    (fun acc item =>
      if item.executed then
        (acc.1 ++ [mkCmdInfo item], acc.2 ++ [userExecMsg item, assistResultMsg item])
      else acc)
    ([], [])

/-- The system message content (hbai_ollama.py:200-270). -/
def systemContent (a : Analyzer) : String :=
  sysPart0 ++ a.infrastructure ++ sysPart1 ++ toString a.min_commands_required ++
    sysPart2 ++ toString a.min_commands_required ++ sysPart3 ++
    toString a.min_commands_required ++ sysPart4

/-- The listing of one executed command inside the current prompt
(hbai_ollama.py:324-332): index, status, summary, then the first 20 output
lines indented by three spaces. -/
def promptCmdBlock (i : Nat) (info : CmdInfo) : String :=
  let status := if info.success then "OK" else "FAILED"
  let base := "\n" ++ toString i ++ ". [" ++ status ++ "] " ++ info.summary ++ "\n"
  if info.output = "" then base
  else
    let ls := info.output.splitOn "\n"
    let indented := String.intercalate "\n" ((ls.take 20).map (fun l => "   " ++ l))
    base ++ indented ++ "\n" ++ (if 20 < ls.length then "   ... (output truncated)\n" else "")

/-- Concatenate the numbered command blocks (`enumerate(executed_cmds, 1)`). -/
def promptCmdList (infos : List CmdInfo) : String :=
  String.join ((infos.enumFrom 1).map (fun p => promptCmdBlock p.1 p.2))

/-- The conditional line of the current prompt (hbai_ollama.py:355). -/
def remainLine (minReq numExecuted : Nat) : String :=
  if numExecuted < minReq then
    "You need " ++ toString (minReq - numExecuted) ++ " more commands before you can conclude"
  else "You may conclude if you have enough information, or continue investigating"

/-- The current prompt (hbai_ollama.py:316-372). -/
def currentPrompt (a : Analyzer) (ctx : ProblemContext) (infos : List CmdInfo)
    (numExecuted : Nat) : String :=
  promptHead ++
    (if infos.isEmpty then "No commands executed yet.\n" else promptCmdList infos) ++
    tailPart0 ++ toString numExecuted ++ tailPart1 ++ toString a.min_commands_required ++
    tailPart2 ++ toString a.min_commands_required ++ tailPart3 ++ ctx.hostname ++
    tailPart4 ++ ctx.mount_point ++ tailPart5 ++ ctx.usage_percent ++ tailPart6 ++
    ctx.used_gb ++ tailPart7 ++ ctx.total_gb ++ tailPart8 ++ ctx.free_gb ++ tailPart9 ++
    remainLine a.min_commands_required numExecuted ++ tailPart10 ++
    (if a.min_commands_required ≤ numExecuted then orBlock else "")

/-- `InteractiveAIAnalyzer._build_conversation_messages`
(hbai_ollama.py:191-379). -/
def buildConversationMessages (a : Analyzer) (ctx : ProblemContext)
    (history : List HistoryItem) : List Message :=
  let numExecuted := (history.filter (fun h => h.executed)).length
  let pass := histPass history
  { role := Role.system, content := systemContent a } ::
    (pass.2 ++ [{ role := Role.user, content := currentPrompt a ctx pass.1 numExecuted }])

/-! ### `get_next_diagnostic_command` (hbai_ollama.py:109-189)

The LLM chat endpoint is modelled as an oracle: the list of outcomes of the
successive `_send_to_ollama` calls (`none` = transport failure, which is also
what an exhausted oracle yields).  The paired variant returns the unconsumed
rest of the oracle so that the session loop can keep threading it. -/

/-- The failure dict `{'success': False, 'error': 'No response from Ollama'}`. -/
def noResponseResult : AIResult :=
  { success := false, done := false, command := "", target_host := none, explanation := "",
    root_cause := "", long_term_solution := "", immediate_actions := "",
    preventive_measures := "", implementation_commands := [],
    error := some "No response from Ollama", raw_response := none }

/-- The failure dict returned when the attempt cap is exhausted
(hbai_ollama.py:186-189). -/
def exhaustedResult : AIResult :=
  { success := false, done := false, command := "", target_host := none, explanation := "",
    root_cause := "", long_term_solution := "", immediate_actions := "",
    preventive_measures := "", implementation_commands := [],
    error := some "AI could not suggest a unique command after 3 attempts. Try larger model or manual intervention.",
    raw_response := none }

/-- The rejection fed back when the model concludes too early
(hbai_ollama.py:150-156). -/
def doneRejectContent (minReq numExecuted : Nat) : String :=
  "REJECTED: You must execute at least " ++ toString minReq ++
    " diagnostic commands before concluding.\n\n" ++
    "So far you have only executed " ++ toString numExecuted ++ " commands.\n\n" ++
    "You need to run " ++ toString (minReq - numExecuted) ++ " more commands.\n\n" ++
    "Continue with the next diagnostic command using a different approach."

/-- The assistant echo appended before a too-similar rejection
(hbai_ollama.py:172-175); the `.get('target_host', hostname)` default is dead
because the key is present in every command result. -/
def similarEchoContent (r : AIResult) : String :=
  "TARGET_HOST: " ++ renderTarget r.target_host ++ "\nNEXT_COMMAND: " ++ r.command ++
    "\nEXPLANATION: " ++ r.explanation

/-- The rejection fed back for a near-duplicate command
(hbai_ollama.py:176-183). -/
def similarRejectContent (executedCommands : List String) (newCommand : String) : String :=
  "REJECTED: That command is too similar to already executed commands.\n\n" ++
    "Already executed:\n" ++
    String.intercalate "\n" (executedCommands.map (fun cmd => "- " ++ cmd)) ++
    "\n\nYour suggestion '" ++ newCommand ++ "' is basically the same.\n\n" ++
    "Suggest something COMPLETELY DIFFERENT - a different approach entirely."

/-- The retry loop of `get_next_diagnostic_command` (hbai_ollama.py:121-189),
paired with the unconsumed oracle. -/
def getNextAuxP (a : Analyzer) (executedCommands : List String) (numExecuted : Nat) :
    List Message → List (Option String) → Nat → AIResult × List (Option String)
  | _, oracle, 0 => (exhaustedResult, oracle)
  | messages, oracle, attemptsLeft + 1 =>
      match oracle.headD none, oracle.tail with
      | none, rest => (noResponseResult, rest)
      | some resp, rest =>
          let result := parseInteractiveResponse resp
          if result.success = false then (result, rest)
          else if result.done then
            if a.min_commands_required ≤ numExecuted then (result, rest)
            else
              getNextAuxP a executedCommands numExecuted
                (messages ++
                  [{ role := Role.assistant,
                     content := result.raw_response.getD "DIAGNOSIS_COMPLETE: true" },
                   { role := Role.user,
                     content := doneRejectContent a.min_commands_required numExecuted }])
                rest attemptsLeft
          else
            if isCommandSimilar result.command.data (executedCommands.map String.data) then
              getNextAuxP a executedCommands numExecuted
                (messages ++
                  [{ role := Role.assistant, content := similarEchoContent result },
                   { role := Role.user,
                     content := similarRejectContent executedCommands result.command }])
                rest attemptsLeft
            else (result, rest)

/-- `get_next_diagnostic_command`, paired with the unconsumed oracle. -/
def getNextP (a : Analyzer) (ctx : ProblemContext) (conversationHistory : List HistoryItem)
    (oracle : List (Option String)) : AIResult × List (Option String) :=
  let executedCommands := ((conversationHistory.filter (fun h => h.executed)).map
    (fun h => h.command))
  getNextAuxP a executedCommands executedCommands.length
    (buildConversationMessages a ctx conversationHistory) oracle 3

/-- `InteractiveAIAnalyzer.get_next_diagnostic_command` (hbai_ollama.py:109-189). -/
def get_next_diagnostic_command (a : Analyzer) (ctx : ProblemContext)
    (conversationHistory : List HistoryItem) (oracle : List (Option String)) : AIResult :=
  (getNextP a ctx conversationHistory oracle).1

/-! ### `CommandExecutor._expand_mysql_command` (hbai_executor.py:31-142)

The credential store is the `ConfigParser` loaded from the credentials file
(`none` when the executor got no credentials file).  Audit calls are modelled
as a list of (level, message) events; messages are the source's f-strings,
except the one debug line that interpolates `re.Match` object reprs
(run-dependent), which is recorded as the fixed text "Password detection". -/

inductive AuditLevel
  | debug
  | info
  | warning
  | error
deriving DecidableEq, Repr

structure AuditEvent where
  level : AuditLevel
  message : String
deriving DecidableEq, Repr

/-- Case-sensitive prefix test. -/
def startsWithLit : List Char → List Char → Bool
  | [], _ => true
  | _ :: _, [] => false
  | p :: ps, c :: cs => (c == p) && startsWithLit ps cs

/-- Python `pat in s`: substring containment. -/
def containsSub (pat : List Char) : List Char → Bool
  | [] => startsWithLit pat []
  | c :: t => startsWithLit pat (c :: t) || containsSub pat t

/-- `∃` over all start positions of a position predicate (the body of
`re.search` for the password patterns). -/
def containsPat (hit : List Char → Bool) : List Char → Bool
  | [] => hit []
  | c :: t => hit (c :: t) || containsPat hit t

/-- `re.match(r'^WORD\s+', command)`: the word at the start followed by at
least one whitespace character. -/
def matchMysqlStart (word : List Char) (command : List Char) : Bool :=
  startsWithLit word command && isPySpace ((command.drop word.length).headD (Char.ofNat 0))

/-- The MySQL-family prefix detection (hbai_executor.py:39-49), patterns in
list order. -/
def cmdTypeOf (command : List Char) : Option String :=
  if matchMysqlStart "mysql".data command then some "mysql"
  else if matchMysqlStart "mysqladmin".data command then some "mysqladmin"
  else if matchMysqlStart "mysqldump".data command then some "mysqldump"
  else none

def isQuoteChar (c : Char) : Bool := c == '\'' || c == '"'

/-- Pattern 1 at a position: `-p['\"]?password['\"]?` with `IGNORECASE`
(the optional quote is taken when present; the trailing quote does not
affect existence). -/
def placeholderAt : List Char → Bool
  | '-' :: c :: rest =>
      (asciiLower c == 'p') &&
        (let rest2 := if isQuoteChar (rest.headD (Char.ofNat 0)) then rest.tail else rest
         startsWithCI "password".data rest2)
  | _ => false

/-- `-p\S` at a position (case-sensitive). -/
def dashPNonWsAt : List Char → Bool
  | '-' :: 'p' :: c :: _ => !isPySpace c
  | _ => false

/-- Pattern 2 at a position: `-p\s+[^\'"\s]` — at least one whitespace
character after `-p`, and the first character after the whitespace run
exists and is not a quote. -/
def interactiveAt : List Char → Bool
  | '-' :: 'p' :: rest =>
      isPySpace (rest.headD (Char.ofNat 0)) &&
        (let v := rest.dropWhile isPySpace
         !v.isEmpty && !isQuoteChar (v.headD (Char.ofNat 0)))
  | _ => false

/-- Pattern 3 at a position: `-p\s*$` — only whitespace (possibly none)
follows `-p` to the end of the string. -/
def pAtEndAt : List Char → Bool
  | '-' :: 'p' :: rest => (rest.dropWhile isPySpace).isEmpty
  | _ => false

/-- Pattern 4 at a position: `-p(?=\s|$)`. -/
def standaloneAt : List Char → Bool
  | '-' :: 'p' :: rest => rest.isEmpty || isPySpace (rest.headD (Char.ofNat 0))
  | _ => false

/-- A real inline password at a position: `-p[^\s\'"]\S*`. -/
def realPwAt : List Char → Bool
  | '-' :: 'p' :: c :: _ => !isPySpace c && !isQuoteChar c
  | _ => false

/-- `re.sub(r"-p['\"]?password['\"]?", '', s, flags=IGNORECASE)`. -/
def subPlaceholderA : Nat → List Char → List Char
  | 0, s => s
  | _ + 1, [] => []
  | fuel + 1, c :: rest =>
      if placeholderAt (c :: rest) then
        let q1 : Nat := if isQuoteChar (rest.tail.headD (Char.ofNat 0)) then 1 else 0
        let afterWord := rest.tail.drop (q1 + 8)
        let q2 : Nat := if isQuoteChar (afterWord.headD (Char.ofNat 0)) then 1 else 0
        subPlaceholderA fuel (rest.drop (1 + q1 + 8 + q2))
      else c :: subPlaceholderA fuel rest

def subPlaceholder (s : List Char) : List Char := subPlaceholderA (s.length + 1) s

/-- `re.sub(r'-p(?=\s|$)', '', s)`: the lookahead is not consumed. -/
def subStandalonePA : Nat → List Char → List Char
  | 0, s => s
  | _ + 1, [] => []
  | fuel + 1, c :: rest =>
      if standaloneAt (c :: rest) then subStandalonePA fuel (rest.drop 1)
      else c :: subStandalonePA fuel rest

def subStandaloneP (s : List Char) : List Char := subStandalonePA (s.length + 1) s

/-- `re.sub(r'-p\S+', '', s)`: `-p` and the maximal non-whitespace run. -/
def subPRunA : Nat → List Char → List Char
  | 0, s => s
  | _ + 1, [] => []
  | fuel + 1, c :: rest =>
      if dashPNonWsAt (c :: rest) then
        let run := (rest.tail.takeWhile (fun d => !isPySpace d)).length
        subPRunA fuel (rest.drop (1 + run))
      else c :: subPRunA fuel rest

def subPRun (s : List Char) : List Char := subPRunA (s.length + 1) s

/-- A `-u\s+\S+\s*` match at a position: returns the match length. -/
def uFlagAt : List Char → Option Nat
  | '-' :: 'u' :: rest =>
      let w1 := (rest.takeWhile isPySpace).length
      if w1 = 0 then none
      else
        let v := rest.drop w1
        let r1 := (v.takeWhile (fun d => !isPySpace d)).length
        if r1 = 0 then none
        else
          let w2 := ((v.drop r1).takeWhile isPySpace).length
          some (2 + w1 + r1 + w2)
  | _ => none

/-- `re.sub(r'-u\s+\S+\s*', '', s)`. -/
def subUFlagA : Nat → List Char → List Char
  | 0, s => s
  | _ + 1, [] => []
  | fuel + 1, c :: rest =>
      match uFlagAt (c :: rest) with
      | some n => subUFlagA fuel (rest.drop (n - 1))
      | none => c :: subUFlagA fuel rest

def subUFlag (s : List Char) : List Char := subUFlagA (s.length + 1) s

/-- `re.sub(r'\s+', ' ', s)`: each maximal whitespace run becomes one
space. -/
def collapseWsA : Nat → List Char → List Char
  | 0, s => s
  | _ + 1, [] => []
  | fuel + 1, c :: rest =>
      if isPySpace c then ' ' :: collapseWsA fuel (rest.drop (rest.takeWhile isPySpace).length)
      else c :: collapseWsA fuel rest

def collapseWs (s : List Char) : List Char := collapseWsA (s.length + 1) s

/-- The cleaning pipeline of `_expand_mysql_command` (hbai_executor.py:110-123). -/
def cleanedOf (command : List Char) : List Char :=
  pyStrip (collapseWs (subUFlag (subPRun (subStandaloneP (subPlaceholder command)))))

/-- `re.sub(f'^{cmd_type}\\s*', f'{cmd_type} -u {user} -p{password} ', cleaned)`
followed by the final whitespace collapse and strip
(hbai_executor.py:127-136). -/
def rebuildWithCreds (cmdType user password : String) (cleaned : List Char) : String :=
  let expanded :=
    if startsWithLit cmdType.data cleaned then
      (cmdType ++ " -u " ++ user ++ " -p" ++ password ++ " ").data ++
        (cleaned.drop cmdType.data.length).dropWhile isPySpace
    else cleaned
  String.mk (pyStrip (collapseWs expanded))

/-- The `[mysql_root]` section of the credentials file; a missing key is
`none` (read through `.get` with defaults `'root'` / `''`). -/
structure MysqlRootSection where
  user : Option String
  password : Option String
deriving DecidableEq, Repr

/-- The credential store: `'mysql_root' in self.credentials` is
`mysql_root.isSome`. -/
structure Credentials where
  mysql_root : Option MysqlRootSection
deriving DecidableEq, Repr

/-- `CommandExecutor._expand_mysql_command` (hbai_executor.py:31-142), paired
with the audit events it logs. -/
def expandMysqlCommand (creds : Option Credentials) (command hostname : String) :
    String × List AuditEvent :=
  match creds with
  | none => (command, [AuditEvent.mk AuditLevel.warning "No credentials available for MySQL expansion"])
  | some cr =>
    match cmdTypeOf command.data with
    | none => (command, [])
    | some cmdType =>
      let log1 := [AuditEvent.mk AuditLevel.debug ("Detected MySQL command type: " ++ cmdType)]
      let hasPlaceholder := containsPat placeholderAt command.data
      let dashPNonWs := containsPat dashPNonWsAt command.data
      let hasInteractive := containsPat interactiveAt command.data && !dashPNonWs
      let hasPAtEnd := containsPat pAtEndAt command.data
      let hasStandaloneP := containsPat standaloneAt command.data && !dashPNonWs
      let log2 := log1 ++ [AuditEvent.mk AuditLevel.debug "Password detection"]
      let hasRealPassword := containsPat realPwAt command.data && !hasPlaceholder
      if hasRealPassword then
        (command, log2 ++ [AuditEvent.mk AuditLevel.debug "MySQL command already has real inline password"])
      else if !(hasPlaceholder || hasInteractive || hasPAtEnd || hasStandaloneP) then
        (command, log2 ++ [AuditEvent.mk AuditLevel.debug "MySQL command does not need password expansion"])
      else
        let log3 := log2 ++
          [AuditEvent.mk AuditLevel.debug ("MySQL command needs credential expansion: " ++ pyTake 50 command)]
        match (if containsSub "hbcsrv12".data hostname.data then cr.mysql_root else none) with
        | none =>
            (command, log3 ++
              [AuditEvent.mk AuditLevel.warning ("No MySQL credentials found for hostname: " ++ hostname)])
        | some sec =>
            let log4 := log3 ++
              [AuditEvent.mk AuditLevel.debug ("Using credentials from [mysql_root] for " ++ hostname)]
            let user := sec.user.getD "root"
            let password := sec.password.getD ""
            if password = "" then
              (command, log4 ++ [AuditEvent.mk AuditLevel.error "Password is empty in [mysql_root]"])
            else
              let log5 := log4 ++
                [AuditEvent.mk AuditLevel.debug
                  ("Found credentials - user: " ++ user ++ ", password length: " ++ toString (pyLen password))]
              let cleaned := cleanedOf command.data
              let log6 := log5 ++ [AuditEvent.mk AuditLevel.debug ("Cleaned command: " ++ String.mk cleaned)]
              let expanded := rebuildWithCreds cmdType user password cleaned
              (expanded, log6 ++
                [AuditEvent.mk AuditLevel.info "MySQL command expanded successfully",
                 AuditEvent.mk AuditLevel.debug ("Original: " ++ pyTake 80 command),
                 AuditEvent.mk AuditLevel.debug ("Expanded: " ++ cmdType ++ " -u " ++ user ++ " -p*** ...")])

/-! ### The session controller: `InteractiveDiagnostic.process_alert`
(hbai-mon.py:353-523)

The three collaborators are oracles threaded through the state: the LLM
transport outcomes (consumed by `getNextP`, up to three per iteration), the
human's raw `input()` lines, and the Command Channel results of
`execute_single_diagnostic`.  An exhausted human oracle yields `""` and an
exhausted channel oracle a failed default result; claims are settled on runs
that the oracles fully determine.  The alert-to-context conversion
(hbai-mon.py:355-379) is float formatting and display, done upstream of the
context record used here. -/

/-- `InfrastructureInfo.resolve_short_hostname` (hbai-mon.py:267-283) over
the hostname keys of the infrastructure file, in file order. -/
def resolveShortHostname (hosts : List String) (shortName : String) : Option String :=
  if hosts.contains shortName then some shortName
  else
    let fqdn := shortName ++ ".internal.boehmecke.org"
    if hosts.contains fqdn then some fqdn
    else hosts.find? (fun h => startsWithLit (shortName ++ ".").data h.data)

/-- The execution-result record returned by
`CommandExecutor.execute_single_diagnostic`, restricted to the fields the
controller consumes (`command`/`hostname`/`execution_time` are echoes it
never reads back). -/
structure ExecResult where
  success : Bool
  stdout : String
  stderr : String
  exit_code : Int
  error_message : Option String
deriving DecidableEq, Repr

/-- The result-display and history-append step for an approved execution
(hbai-mon.py:483-509): a failed result with empty stdout has its `stdout`
overwritten with a `Command failed: …` message before the turn is appended
(a `None` error message renders as `"None"`). -/
def recordExecution (command : String) (target : Option String) (r : ExecResult) :
    HistoryItem :=
  let stdoutPatched :=
    if !r.success && r.stdout = "" then
      "Command failed: " ++ (match r.error_message with | some m => m | none => "None")
    else r.stdout
  { command := command, target_host := target, executed := true, reason := none,
    stdout := some stdoutPatched, stderr := some r.stderr,
    exit_code := some r.exit_code, success := some r.success }

/-- The target-host resolution step (hbai-mon.py:436-443): a falsy (`None`
or empty) target skips resolution; a short name resolves through the
infrastructure directory and falls back to the alerting host. -/
def resolveTarget (hosts : List String) (alertHost : String) : Option String → Option String
  | some t =>
      if t ≠ "" ∧ !(t.endsWith ".internal.boehmecke.org") then
        match resolveShortHostname hosts t with
        | some r => some r
        | none => some alertHost
      else some t
  | none => none

/-- `input().strip().lower()` (hbai-mon.py:453). -/
def normInput (s : String) : String :=
  String.mk ((pyStrip s.data).map asciiLower)

/-- The way a session ended. -/
inductive Outcome
  | aiFailed (r : AIResult)
  | concluded (r : AIResult)
  | noCommand
  | quit
  | skipped
  | ranOut
deriving DecidableEq, Repr

/-- The hard iteration cap (hbai-mon.py:383, `max_iterations = 50`). -/
def maxIterations : Nat := 50

/-- The controller and its collaborators. -/
structure DiagConfig where
  ai : Analyzer
  infraHosts : List String
deriving DecidableEq, Repr

/-- The mutable loop state of `process_alert`, with the unconsumed oracles. -/
structure DiagState where
  history : List HistoryItem
  llm : List (Option String)
  human : List String
  chan : List ExecResult
  iteration : Nat
deriving DecidableEq, Repr

/-- The observable outcome of one `process_alert` run: how it ended, the
final history, the number of loop iterations (each making exactly one
`get_next_diagnostic_command` call, counted in `aiCalls`), whether the
"Reached maximum iterations" message is printed (hbai-mon.py:518-520, only
on the epilogue path, i.e. not after `q`/`s`), the Python return value, and
the unconsumed oracles. -/
structure SessionResult where
  outcome : Outcome
  history : List HistoryItem
  iterations : Nat
  aiCalls : Nat
  maxItersMessage : Bool
  returnValue : Bool
  llmRest : List (Option String)
  humanRest : List String
  chanRest : List ExecResult
deriving DecidableEq, Repr

/-- The failed default for an exhausted channel oracle (modelling only:
claims are settled on runs whose oracles cover every approval). -/
def chanDefault : ExecResult :=
  { success := false, stdout := "", stderr := "", exit_code := -1,
    error_message := some "channel oracle exhausted" }

/-- The rejected turn appended when the human declines a proposal
(hbai-mon.py:465-470). -/
def rejectedTurn (command : String) (target : Option String) : HistoryItem :=
  { command := command, target_host := target, executed := false,
    reason := some "User rejected command", stdout := none, stderr := none,
    exit_code := none, success := none }

/-- The `while iteration < max_iterations` loop of `process_alert`
(hbai-mon.py:382-523), by recursion on the remaining iterations
(`fuel = max_iterations - iteration`). -/
def processLoop (cfg : DiagConfig) (ctx : ProblemContext) : DiagState → Nat → SessionResult
  | st, 0 =>
      { outcome := Outcome.ranOut, history := st.history, iterations := st.iteration,
        aiCalls := 0, maxItersMessage := decide (maxIterations ≤ st.iteration),
        returnValue := true, llmRest := st.llm, humanRest := st.human, chanRest := st.chan }
  | st, fuel + 1 =>
      let it := st.iteration + 1
      let pr := getNextP cfg.ai ctx st.history st.llm
      let ai := pr.1
      let llm2 := pr.2
      if ai.success = false then
        { outcome := Outcome.aiFailed ai, history := st.history, iterations := it,
          aiCalls := 1, maxItersMessage := decide (maxIterations ≤ it), returnValue := true,
          llmRest := llm2, humanRest := st.human, chanRest := st.chan }
      else if ai.done then
        { outcome := Outcome.concluded ai, history := st.history, iterations := it,
          aiCalls := 1, maxItersMessage := decide (maxIterations ≤ it), returnValue := true,
          llmRest := llm2, humanRest := st.human, chanRest := st.chan }
      else if ai.command = "" then
        { outcome := Outcome.noCommand, history := st.history, iterations := it,
          aiCalls := 1, maxItersMessage := decide (maxIterations ≤ it), returnValue := true,
          llmRest := llm2, humanRest := st.human, chanRest := st.chan }
      else
        let target := resolveTarget cfg.infraHosts ctx.hostname ai.target_host
        let u := normInput (st.human.headD "")
        let human2 := st.human.tail
        if u = "q" then
          { outcome := Outcome.quit, history := st.history, iterations := it,
            aiCalls := 1, maxItersMessage := false, returnValue := false,
            llmRest := llm2, humanRest := human2, chanRest := st.chan }
        else if u = "s" then
          { outcome := Outcome.skipped, history := st.history, iterations := it,
            aiCalls := 1, maxItersMessage := false, returnValue := false,
            llmRest := llm2, humanRest := human2, chanRest := st.chan }
        else if u ≠ "y" then
          let res := processLoop cfg ctx
            { history := st.history ++ [rejectedTurn ai.command target], llm := llm2,
              human := human2, chan := st.chan, iteration := it } fuel
          { res with aiCalls := res.aiCalls + 1 }
        else
          let r := st.chan.headD chanDefault
          let res := processLoop cfg ctx
            { history := st.history ++ [recordExecution ai.command target r],
              llm := llm2, human := human2, chan := st.chan.tail, iteration := it } fuel
          { res with aiCalls := res.aiCalls + 1 }

/-- `InteractiveDiagnostic.process_alert` (hbai-mon.py:353-523) on the given
problem context and oracles. -/
def process_alert (cfg : DiagConfig) (ctx : ProblemContext) (llm : List (Option String))
    (human : List String) (chan : List ExecResult) : SessionResult :=
  processLoop cfg ctx
    { history := [], llm := llm, human := human, chan := chan, iteration := 0 }
    maxIterations

/-- Executed-turn count of a conversation history (the quantity
`len([h for h in history if h.get('executed')])` that the minimum-evidence
check and the prompt builder compute). -/
def executedCount (h : List HistoryItem) : Nat :=
  (h.filter (fun x => x.executed)).length

/-- Case-insensitive substring occurrence (any position). -/
def containsCI (pat s : List Char) : Bool :=
  (findCI pat s).isSome

/-! ### Concrete fixtures used by the claim witnesses -/

/-- A concrete disk-usage alert context. -/
def exCtx : ProblemContext :=
  { hostname := "hb01", mount_point := "/var", usage_percent := "91",
    used_gb := "45.5", total_gb := "50.0", free_gb := "4.5" }

/-- A concrete analyzer with the given minimum-command requirement. -/
def exAnalyzer (minReq : Nat) : Analyzer :=
  { infrastructure := "INFRA", min_commands_required := minReq, model := "m",
    api_key := "", timeout := 600 }

/-- A concrete controller configuration. -/
def exCfg (minReq : Nat) : DiagConfig :=
  { ai := exAnalyzer minReq, infraHosts := [] }

/-- A well-formed conclusion reply. -/
def exDone : String :=
  "DIAGNOSIS_COMPLETE: true\nROOT_CAUSE: logs\nLONG_TERM_SOLUTION: rotate\nCOMMANDS_TO_IMPLEMENT:\n1. logrotate -f"

/-- A well-formed command-proposal reply. -/
def exProp : String := "NEXT_COMMAND: df -h\nEXPLANATION: check disk"

/-- A successful channel result. -/
def exOk : ExecResult :=
  { success := true, stdout := "ok", stderr := "", exit_code := 0, error_message := none }

/-- An executed history turn. -/
def exHist1 : HistoryItem :=
  { command := "df -h", target_host := some "hb01", executed := true, reason := none,
    stdout := some "ok", stderr := some "", exit_code := some 0, success := some true }

/-- Loop state with one pending proposal and a human who answers `n`. -/
def exStC8 : DiagState :=
  { history := [], llm := [some exProp], human := ["n"], chan := [], iteration := 0 }

/-! ## Theorems -/

set_option maxRecDepth 10000

theorem parse_done_success (resp : String) :
    (parseInteractiveResponse resp).done = true → (parseInteractiveResponse resp).success = true := by
  unfold parseInteractiveResponse
  by_cases h1 : stripThink resp.data = []
  · simp [h1, failureResult]
  · by_cases h2 : hasDiagnosisComplete (stripThink resp.data) = true
    · simp [h1, h2]
    · cases h3 : (match reFirst tryNextCommand (stripThink resp.data) with
        | some g => some g
        | none => reFirst tryNextCommand2 (stripThink resp.data)) with
      | none => simp [h1, h2, h3, failureResult]
      | some g =>
          by_cases h4 : pyStrip (List.takeWhile (fun c => !decide (c = '\n')) (stripSet cmdMarkup (pyStrip g))) = []
          · simp [h1, h2, h3, h4, failureResult]
          · simp [h1, h2, h3, h4]

theorem getNextAux_done_min (a : Analyzer) (exec : List String) (numExec : Nat) :
    ∀ (n : Nat) (msgs : List Message) (oracle : List (Option String)),
      ((getNextAuxP a exec numExec msgs oracle n).1).done = true →
      a.min_commands_required ≤ numExec := by
  intro n
  induction n with
  | zero =>
      intro msgs oracle h
      simp [getNextAuxP, exhaustedResult] at h
  | succ n ih =>
      intro msgs oracle h
      simp only [getNextAuxP] at h
      cases hor : oracle.headD none with
      | none => rw [hor] at h; simp [noResponseResult] at h
      | some resp =>
          rw [hor] at h
          simp only [] at h
          by_cases hsucc : (parseInteractiveResponse resp).success = false
          · rw [if_pos hsucc] at h
            have := parse_done_success resp h
            rw [this] at hsucc
            exact absurd hsucc (by simp)
          · rw [if_neg hsucc] at h
            by_cases hdone : (parseInteractiveResponse resp).done = true
            · rw [if_pos hdone] at h
              by_cases hmin : a.min_commands_required ≤ numExec
              · exact hmin
              · rw [if_neg hmin] at h
                exact ih _ _ h
            · rw [if_neg hdone] at h
              by_cases hsim : isCommandSimilar (parseInteractiveResponse resp).command.data
                  (exec.map String.data) = true
              · rw [if_pos hsim] at h
                exact ih _ _ h
              · rw [if_neg hsim] at h
                simp at hdone
                rw [hdone] at h
                exact absurd h (by simp)

theorem getNextAux_unique (a : Analyzer) (exec : List String) (numExec : Nat) :
    ∀ (n : Nat) (msgs : List Message) (oracle : List (Option String)),
      ((getNextAuxP a exec numExec msgs oracle n).1).success = true →
      ((getNextAuxP a exec numExec msgs oracle n).1).done = false →
      isCommandSimilar ((getNextAuxP a exec numExec msgs oracle n).1).command.data
        (exec.map String.data) = false := by
  intro n
  induction n with
  | zero =>
      intro msgs oracle h _
      simp [getNextAuxP, exhaustedResult] at h
  | succ n ih =>
      intro msgs oracle h hd
      rcases oracle with _ | ⟨o, rest⟩
      · simp [getNextAuxP, noResponseResult] at h
      · rcases o with _ | resp
        · simp [getNextAuxP, noResponseResult] at h
        · simp only [getNextAuxP, List.headD_cons, List.tail_cons] at h hd ⊢
          by_cases hsucc : (parseInteractiveResponse resp).success = false
          · rw [if_pos hsucc] at h
            rw [h] at hsucc
            exact absurd hsucc (by simp)
          · rw [if_neg hsucc] at h hd ⊢
            by_cases hdone : (parseInteractiveResponse resp).done = true
            · rw [if_pos hdone] at h hd ⊢
              by_cases hmin : a.min_commands_required ≤ numExec
              · rw [if_pos hmin] at hd
                rw [hdone] at hd
                exact absurd hd (by simp)
              · rw [if_neg hmin] at h hd ⊢
                exact ih _ _ h hd
            · rw [if_neg hdone] at h hd ⊢
              by_cases hsim : isCommandSimilar (parseInteractiveResponse resp).command.data
                  (exec.map String.data) = true
              · rw [if_pos hsim] at h hd ⊢
                exact ih _ _ h hd
              · rw [if_neg hsim] at h hd ⊢
                simpa using hsim

theorem getNextP_done_min (cfg : Analyzer) (ctx : ProblemContext)
    (history : List HistoryItem) (oracle : List (Option String))
    (h : (getNextP cfg ctx history oracle).1.done = true) :
    cfg.min_commands_required ≤ executedCount history := by
  have := getNextAux_done_min cfg
    ((history.filter (fun x => x.executed)).map (fun x => x.command))
    ((history.filter (fun x => x.executed)).map (fun x => x.command)).length
    3 (buildConversationMessages cfg ctx history) oracle (by simpa [getNextP] using h)
  simpa [executedCount, List.length_map] using this

theorem processLoop_concluded_min (cfg : DiagConfig) (ctx : ProblemContext) :
    ∀ (fuel : Nat) (st : DiagState) (r : AIResult),
      (processLoop cfg ctx st fuel).outcome = Outcome.concluded r →
      cfg.ai.min_commands_required ≤ executedCount (processLoop cfg ctx st fuel).history := by
  intro fuel
  induction fuel with
  | zero =>
      intro st r h
      simp [processLoop] at h
  | succ fuel ih =>
      intro st r h
      simp only [processLoop] at h ⊢
      by_cases h1 : (getNextP cfg.ai ctx st.history st.llm).1.success = false
      · rw [if_pos h1] at h
        simp at h
      · rw [if_neg h1] at h ⊢
        by_cases h2 : (getNextP cfg.ai ctx st.history st.llm).1.done = true
        · rw [if_pos h2] at h ⊢
          exact getNextP_done_min cfg.ai ctx st.history st.llm h2
        · rw [if_neg h2] at h ⊢
          by_cases h3 : (getNextP cfg.ai ctx st.history st.llm).1.command = ""
          · rw [if_pos h3] at h
            simp at h
          · rw [if_neg h3] at h ⊢
            by_cases h4 : normInput (st.human.headD "") = "q"
            · rw [if_pos h4] at h
              simp at h
            · rw [if_neg h4] at h ⊢
              by_cases h5 : normInput (st.human.headD "") = "s"
              · rw [if_pos h5] at h
                simp at h
              · rw [if_neg h5] at h ⊢
                by_cases h6 : normInput (st.human.headD "") ≠ "y"
                · rw [if_pos h6] at h ⊢
                  exact ih _ _ h
                · rw [if_neg h6] at h ⊢
                  exact ih _ _ h


theorem processLoop_iterations_le (cfg : DiagConfig) (ctx : ProblemContext) :
    ∀ (fuel : Nat) (st : DiagState),
      (processLoop cfg ctx st fuel).iterations ≤ st.iteration + fuel := by
  intro fuel
  induction fuel with
  | zero => intro st; simp [processLoop]
  | succ fuel ih =>
      intro st
      simp only [processLoop]
      by_cases h1 : (getNextP cfg.ai ctx st.history st.llm).1.success = false
      · rw [if_pos h1]; simp <;> omega
      · rw [if_neg h1]
        by_cases h2 : (getNextP cfg.ai ctx st.history st.llm).1.done = true
        · rw [if_pos h2]; simp <;> omega
        · rw [if_neg h2]
          by_cases h3 : (getNextP cfg.ai ctx st.history st.llm).1.command = ""
          · rw [if_pos h3]; simp <;> omega
          · rw [if_neg h3]
            by_cases h4 : normInput (st.human.headD "") = "q"
            · rw [if_pos h4]; simp <;> omega
            · rw [if_neg h4]
              by_cases h5 : normInput (st.human.headD "") = "s"
              · rw [if_pos h5]; simp <;> omega
              · rw [if_neg h5]
                by_cases h6 : normInput (st.human.headD "") ≠ "y"
                · rw [if_pos h6]
                  refine le_trans (ih _) ?_
                  simp <;> omega
                · rw [if_neg h6]
                  refine le_trans (ih _) ?_
                  simp <;> omega

theorem processLoop_aiCalls (cfg : DiagConfig) (ctx : ProblemContext) :
    ∀ (fuel : Nat) (st : DiagState),
      (processLoop cfg ctx st fuel).iterations
        = st.iteration + (processLoop cfg ctx st fuel).aiCalls := by
  intro fuel
  induction fuel with
  | zero => intro st; simp [processLoop]
  | succ fuel ih =>
      intro st
      simp only [processLoop]
      by_cases h1 : (getNextP cfg.ai ctx st.history st.llm).1.success = false
      · rw [if_pos h1]
      · rw [if_neg h1]
        by_cases h2 : (getNextP cfg.ai ctx st.history st.llm).1.done = true
        · rw [if_pos h2]
        · rw [if_neg h2]
          by_cases h3 : (getNextP cfg.ai ctx st.history st.llm).1.command = ""
          · rw [if_pos h3]
          · rw [if_neg h3]
            by_cases h4 : normInput (st.human.headD "") = "q"
            · rw [if_pos h4]
            · rw [if_neg h4]
              by_cases h5 : normInput (st.human.headD "") = "s"
              · rw [if_pos h5]
              · rw [if_neg h5]
                by_cases h6 : normInput (st.human.headD "") ≠ "y"
                · rw [if_pos h6]
                  refine (ih _).trans ?_
                  simp <;> omega
                · rw [if_neg h6]
                  refine (ih _).trans ?_
                  simp <;> omega

theorem processLoop_ranOut (cfg : DiagConfig) (ctx : ProblemContext) :
    ∀ (fuel : Nat) (st : DiagState),
      (processLoop cfg ctx st fuel).outcome = Outcome.ranOut →
      (processLoop cfg ctx st fuel).iterations = st.iteration + fuel ∧
        (processLoop cfg ctx st fuel).maxItersMessage
          = decide (maxIterations ≤ st.iteration + fuel) := by
  intro fuel
  induction fuel with
  | zero => intro st _; simp [processLoop]
  | succ fuel ih =>
      intro st h
      simp only [processLoop] at h ⊢
      by_cases h1 : (getNextP cfg.ai ctx st.history st.llm).1.success = false
      · rw [if_pos h1] at h; simp at h
      · rw [if_neg h1] at h ⊢
        by_cases h2 : (getNextP cfg.ai ctx st.history st.llm).1.done = true
        · rw [if_pos h2] at h; simp at h
        · rw [if_neg h2] at h ⊢
          by_cases h3 : (getNextP cfg.ai ctx st.history st.llm).1.command = ""
          · rw [if_pos h3] at h; simp at h
          · rw [if_neg h3] at h ⊢
            by_cases h4 : normInput (st.human.headD "") = "q"
            · rw [if_pos h4] at h; simp at h
            · rw [if_neg h4] at h ⊢
              by_cases h5 : normInput (st.human.headD "") = "s"
              · rw [if_pos h5] at h; simp at h
              · rw [if_neg h5] at h ⊢
                have e : st.iteration + 1 + fuel = st.iteration + (fuel + 1) := by omega
                by_cases h6 : normInput (st.human.headD "") ≠ "y"
                · rw [if_pos h6] at h ⊢
                  obtain ⟨hi, hm⟩ := ih _ h
                  refine ⟨hi.trans ?_, hm.trans ?_⟩
                  · simp only []
                    omega
                  · simp only []
                    rw [e]
                · rw [if_neg h6] at h ⊢
                  obtain ⟨hi, hm⟩ := ih _ h
                  refine ⟨hi.trans ?_, hm.trans ?_⟩
                  · simp only []
                    omega
                  · simp only []
                    rw [e]

theorem ratioGt_false_le (x y : List Char) (h : ratioGtThreshold x y = false) :
    seqRatio x y ≤ 7 / 10 := by
  unfold ratioGtThreshold at h
  by_cases hT : x.length + y.length = 0
  · rw [if_pos hT] at h; simp at h
  · rw [if_neg hT] at h
    have h' : 20 * matchesTotal x y ≤ 7 * (x.length + y.length) :=
      Nat.le_of_not_lt (by simpa using h)
    unfold seqRatio
    rw [if_neg hT]
    have hpos : (0 : ℚ) < (x.length : ℚ) + (y.length : ℚ) := by
      have h0 : 0 < x.length + y.length := Nat.pos_of_ne_zero hT
      exact_mod_cast h0
    rw [div_le_div_iff hpos (by norm_num : (0 : ℚ) < 10)]
    have h'' : ((20 * matchesTotal x y : ℕ) : ℚ) ≤ ((7 * (x.length + y.length) : ℕ) : ℚ) := by
      exact_mod_cast h'
    push_cast at h'' ⊢
    linarith

theorem getNextP_parse_fail (a : Analyzer) (ctx : ProblemContext) (history : List HistoryItem)
    (resp : String) (rest : List (Option String))
    (h : (parseInteractiveResponse resp).success = false) :
    getNextP a ctx history (some resp :: rest) = (parseInteractiveResponse resp, rest) := by
  simp only [getNextP, getNextAuxP, List.headD_cons, List.tail_cons]
  rw [if_pos h]

theorem processLoop_aiFailed_step (cfg : DiagConfig) (ctx : ProblemContext) (st : DiagState)
    (fuel : Nat) (h : (getNextP cfg.ai ctx st.history st.llm).1.success = false) :
    processLoop cfg ctx st (fuel + 1)
      = { outcome := Outcome.aiFailed (getNextP cfg.ai ctx st.history st.llm).1,
          history := st.history, iterations := st.iteration + 1, aiCalls := 1,
          maxItersMessage := decide (maxIterations ≤ st.iteration + 1), returnValue := true,
          llmRest := (getNextP cfg.ai ctx st.history st.llm).2, humanRest := st.human,
          chanRest := st.chan } := by
  simp only [processLoop]
  rw [if_pos h]

theorem histPass_acc : ∀ (h : List HistoryItem) (c : List CmdInfo) (m : List Message),
    List.foldl
      (fun acc item =>
        if item.executed then
          (acc.1 ++ [mkCmdInfo item], acc.2 ++ [userExecMsg item, assistResultMsg item])
        else acc) (c, m) h
      = (c ++ (h.filter (fun x => x.executed)).map mkCmdInfo,
         m ++ (h.filter (fun x => x.executed)).bind
            (fun i => [userExecMsg i, assistResultMsg i])) := by
  intro h
  induction h with
  | nil => intro c m; simp
  | cons x t ih =>
      intro c m
      by_cases hx : x.executed
      · simp only [List.foldl_cons, List.filter_cons, hx, if_pos]
        rw [ih]
        simp
      · simp only [List.foldl_cons, List.filter_cons, hx, if_neg]
        rw [ih]
        simp [hx]

theorem buildMessages_decomp (a : Analyzer) (ctx : ProblemContext) (history : List HistoryItem) :
    buildConversationMessages a ctx history
      = { role := Role.system, content := systemContent a } ::
          ((history.filter (fun x => x.executed)).bind
              (fun i => [userExecMsg i, assistResultMsg i]) ++
            [{ role := Role.user,
               content := currentPrompt a ctx
                 ((history.filter (fun x => x.executed)).map mkCmdInfo)
                 (history.filter (fun x => x.executed)).length }]) := by
  simp only [buildConversationMessages, histPass]
  rw [histPass_acc]
  simp

theorem buildMessages_frame (a1 a2 : Analyzer) (ctx : ProblemContext)
    (history : List HistoryItem)
    (h1 : a1.infrastructure = a2.infrastructure)
    (h2 : a1.min_commands_required = a2.min_commands_required) :
    buildConversationMessages a1 ctx history = buildConversationMessages a2 ctx history := by
  simp only [buildConversationMessages, systemContent, currentPrompt, remainLine, h1, h2]

theorem containsCI_tail {pat : List Char} {c : Char} {t : List Char}
    (h : containsCI pat (c :: t) = false) : containsCI pat t = false := by
  simp only [containsCI, findCI] at h ⊢
  by_cases hs : startsWithCI pat (c :: t) = true
  · simp [hs] at h
  · simp [hs] at h
    simp [h]

theorem containsCI_drop {pat : List Char} :
    ∀ (s : List Char) (k : Nat), containsCI pat s = false → containsCI pat (s.drop k) = false
  | _, 0, h => h
  | [], _ + 1, h => h
  | _ :: t, k + 1, h => containsCI_drop t k (containsCI_tail h)

theorem startsWithCI_self_append (pat s : List Char) (h : pat.map asciiLower = pat) :
    startsWithCI pat (pat ++ s) = true := by
  induction pat with
  | nil => rfl
  | cons p ps ih =>
      simp only [List.map_cons, List.cons.injEq] at h
      simp [startsWithCI, h.1, ih h.2]

/-- `stripClosedA` with any fuel leaves a string with no closing reasoning
marker unchanged. -/
theorem stripClosedA_id : ∀ (fuel : Nat) (s : List Char),
    containsCI closeMarker s = false → stripClosedA fuel s = s
  | 0, _, _ => rfl
  | _ + 1, [], _ => rfl
  | fuel + 1, c :: rest, h => by
      have hrest := stripClosedA_id fuel rest (containsCI_tail h)
      by_cases ho : startsWithCI openMarker (c :: rest) = true
      · have hdrop : findCI closeMarker (rest.drop 6) = none := by
          have h2 : containsCI closeMarker ((c :: rest).drop 7) = false :=
            containsCI_drop _ 7 h
          simpa [containsCI, Option.isSome_iff_exists] using h2
        simp [stripClosedA, ho, hdrop, hrest]
      · simp [stripClosedA, ho, hrest]

/-- A string with no closing reasoning marker anywhere is left unchanged by
the paired-block removal. -/
theorem stripClosed_id (s : List Char) (h : containsCI closeMarker s = false) :
    stripClosed s = s :=
  stripClosedA_id _ s h

theorem stripClosedA_nil (fuel : Nat) : stripClosedA fuel [] = [] := by
  cases fuel <;> rfl

/-- A reply that begins with an opening reasoning marker and has no closing
marker is truncated to nothing. -/
theorem stripUnclosed_open (s : List Char) : stripUnclosed (openMarker ++ s) = [] := by
  have h : startsWithCI openMarker ('<' :: (['t', 'h', 'i', 'n', 'k', '>'] ++ s)) = true :=
    startsWithCI_self_append openMarker s (by decide)
  show stripUnclosed ('<' :: (['t', 'h', 'i', 'n', 'k', '>'] ++ s)) = []
  rw [stripUnclosed, if_pos h]

/-- A reply whose entire content is wrapped in one pair of reasoning markers
(the first closing marker being the final one) is removed whole by the
paired-block removal. -/
theorem stripClosedA_wrapped (fuel : Nat) (s : List Char)
    (h : findCI closeMarker (s ++ closeMarker) = some s.length) :
    stripClosedA (fuel + 1) (openMarker ++ (s ++ closeMarker)) = [] := by
  have ho : startsWithCI openMarker
      ('<' :: (['t', 'h', 'i', 'n', 'k', '>'] ++ (s ++ closeMarker))) = true :=
    startsWithCI_self_append openMarker (s ++ closeMarker) (by decide)
  show stripClosedA (fuel + 1) ('<' :: (['t', 'h', 'i', 'n', 'k', '>'] ++ (s ++ closeMarker))) = []
  rw [stripClosedA, if_pos ho]
  have hd : (List.drop 6 (['t', 'h', 'i', 'n', 'k', '>'] ++ (s ++ closeMarker)))
      = s ++ closeMarker := rfl
  rw [hd, h]
  have hnil : ((s ++ closeMarker).drop (s.length + 8)) = [] := by
    apply List.drop_eq_nil_of_le
    simp [closeMarker]
  show stripClosedA fuel (List.drop (s.length + 8) (s ++ closeMarker)) = []
  rw [hnil, stripClosedA_nil]

theorem stripClosed_wrapped (s : List Char)
    (h : findCI closeMarker (s ++ closeMarker) = some s.length) :
    stripClosed (openMarker ++ (s ++ closeMarker)) = [] :=
  stripClosedA_wrapped _ s h

/-- C1: a session never ends `concluded` with an executed-turn count below
the configured minimum; `get_next_diagnostic_command` returns a done result
only when the executed-turn count is at least the minimum; and a premature
conclusion is rejected by feeding back the `doneRejectContent` message
(which states how many more commands are required) and re-requesting. -/
theorem claim_C1 :
    (∀ (cfg : DiagConfig) (ctx : ProblemContext) (fuel : Nat) (st : DiagState) (r : AIResult),
      (processLoop cfg ctx st fuel).outcome = Outcome.concluded r →
      cfg.ai.min_commands_required ≤ executedCount (processLoop cfg ctx st fuel).history) ∧
    (∀ (a : Analyzer) (ctx : ProblemContext) (history : List HistoryItem)
        (oracle : List (Option String)),
      (getNextP a ctx history oracle).1.done = true →
      a.min_commands_required ≤ executedCount history) ∧
    (∀ (a : Analyzer) (exec : List String) (numExec : Nat) (n : Nat) (msgs : List Message)
        (resp : String) (rest : List (Option String)),
      (parseInteractiveResponse resp).success = true →
      (parseInteractiveResponse resp).done = true →
      numExec < a.min_commands_required →
      getNextAuxP a exec numExec msgs (some resp :: rest) (n + 1)
        = getNextAuxP a exec numExec
            (msgs ++
              [{ role := Role.assistant,
                 content := (parseInteractiveResponse resp).raw_response.getD
                   "DIAGNOSIS_COMPLETE: true" },
               { role := Role.user,
                 content := doneRejectContent a.min_commands_required numExec }])
            rest n) := by
  refine ⟨?_, ?_, ?_⟩
  · intro cfg ctx fuel st r h
    exact processLoop_concluded_min cfg ctx fuel st r h
  · intro a ctx history oracle h
    exact getNextP_done_min a ctx history oracle h
  · intro a exec numExec n msgs resp rest hs hd hmin
    simp only [getNextAuxP, List.headD_cons, List.tail_cons]
    rw [if_neg (by simp [hs]), if_pos hd, if_neg (by omega)]

/-- Witness for C1: a session with minimum 1 that executes one command and
then concludes; a done reply against a one-executed-turn history at
minimum 1; and the concrete premature-done rejection step at minimum 5. -/
theorem claim_C1_witness :
    (exCfg 1).ai.min_commands_required
        ≤ executedCount (processLoop (exCfg 1) exCtx
            { history := [], llm := [some exProp, some exDone], human := ["y"],
              chan := [exOk], iteration := 0 } 50).history ∧
    (exAnalyzer 1).min_commands_required ≤ executedCount [exHist1] ∧
    getNextAuxP (exAnalyzer 5) [] 0 [] [some exDone] 1
      = getNextAuxP (exAnalyzer 5) [] 0
          ([] ++
            [{ role := Role.assistant,
               content := (parseInteractiveResponse exDone).raw_response.getD
                 "DIAGNOSIS_COMPLETE: true" },
             { role := Role.user,
               content := doneRejectContent (exAnalyzer 5).min_commands_required 0 }])
          [] 0 := by
  refine ⟨?_, ?_, ?_⟩
  · exact claim_C1.1 (exCfg 1) exCtx 50
      { history := [], llm := [some exProp, some exDone], human := ["y"],
        chan := [exOk], iteration := 0 }
      (parseInteractiveResponse exDone) (by decide)
  · exact claim_C1.2.1 (exAnalyzer 1) exCtx [exHist1] [some exDone] (by decide)
  · exact claim_C1.2.2 (exAnalyzer 5) [] 0 0 [] exDone [] (by decide) (by decide) (by decide)

/-- C2 (counterexample to the claim as stated): the rejection threshold is
strict. The normalised pair `abcdefg123` / `abcdefgxyz` has similarity
exactly `0.7` (`2*7/(10+10)`), is not flagged as similar, and the candidate
is passed on for approval even though its ratio is ≥ 0.7 against an
executed command. -/
theorem claim_C2_counterexample :
    seqRatio (pyNorm "abcdefg123".data) (pyNorm "abcdefgxyz".data) = 7 / 10 ∧
    isCommandSimilar "abcdefg123".data ["abcdefgxyz".data] = false ∧
    (get_next_diagnostic_command (exAnalyzer 10) exCtx
        [{ command := "abcdefgxyz", target_host := some "hb01", executed := true,
           reason := none, stdout := some "out", stderr := some "", exit_code := some 0,
           success := some true }]
        [some "TARGET_HOST: hb01\nNEXT_COMMAND: abcdefg123\nEXPLANATION: boundary case"]).command
      = "abcdefg123" := by
  refine ⟨?_, by decide, by decide⟩
  have hm : matchesTotal (pyNorm "abcdefg123".data) (pyNorm "abcdefgxyz".data) = 7 := by
    decide
  have hl1 : (pyNorm "abcdefg123".data).length = 10 := by decide
  have hl2 : (pyNorm "abcdefgxyz".data).length = 10 := by decide
  simp only [seqRatio, hm, hl1, hl2]
  norm_num

/-- C2 (amended): a returned (non-done, successful) proposal is never a
near-duplicate of an executed command in the strict sense: its similarity
ratio after whitespace collapsing and lowercasing is at most 0.7 (not
strictly below) against every executed command of the history; and a
proposal that does exceed the threshold against some executed command is
rejected — the loop feeds back the similarity complaint and re-requests
instead of returning it. -/
theorem claim_C2 :
    (∀ (a : Analyzer) (ctx : ProblemContext) (history : List HistoryItem)
        (oracle : List (Option String)),
      (getNextP a ctx history oracle).1.success = true →
      (getNextP a ctx history oracle).1.done = false →
      isCommandSimilar (getNextP a ctx history oracle).1.command.data
          ((history.filter (fun h => h.executed)).map (fun h => h.command.data)) = false ∧
        ∀ item ∈ history, item.executed = true →
          seqRatio (pyNorm (getNextP a ctx history oracle).1.command.data)
              (pyNorm item.command.data) ≤ 7 / 10) ∧
    (∀ (a : Analyzer) (exec : List String) (numExec : Nat) (n : Nat) (msgs : List Message)
        (resp : String) (rest : List (Option String)),
      (parseInteractiveResponse resp).success = true →
      (parseInteractiveResponse resp).done = false →
      isCommandSimilar (parseInteractiveResponse resp).command.data
          (exec.map String.data) = true →
      getNextAuxP a exec numExec msgs (some resp :: rest) (n + 1)
        = getNextAuxP a exec numExec
            (msgs ++
              [{ role := Role.assistant,
                 content := similarEchoContent (parseInteractiveResponse resp) },
               { role := Role.user,
                 content := similarRejectContent exec
                   (parseInteractiveResponse resp).command }])
            rest n) := by
  constructor
  · intro a ctx history oracle hs hd
    have hu := getNextAux_unique a
      ((history.filter (fun h => h.executed)).map (fun h => h.command))
      ((history.filter (fun h => h.executed)).map (fun h => h.command)).length 3
      (buildConversationMessages a ctx history) oracle
      (by simpa [getNextP] using hs) (by simpa [getNextP] using hd)
    have hu' : isCommandSimilar (getNextP a ctx history oracle).1.command.data
        ((history.filter (fun h => h.executed)).map (fun h => h.command.data)) = false := by
      simpa [getNextP, List.map_map, Function.comp] using hu
    refine ⟨hu', ?_⟩
    intro item hmem hexec
    have hmem2 : item.command.data ∈
        (history.filter (fun h => h.executed)).map (fun h => h.command.data) :=
      List.mem_map_of_mem _ (List.mem_filter.mpr ⟨hmem, by simp [hexec]⟩)
    have hall := hu'
    simp only [isCommandSimilar, List.any_eq_false] at hall
    exact ratioGt_false_le _ _ (by simpa using hall _ hmem2)
  · intro a exec numExec n msgs resp rest hs hd hsim
    simp only [getNextAuxP, List.headD_cons, List.tail_cons]
    rw [if_neg (by simp [hs]), if_neg (by simp [hd]), if_pos hsim]

/-- Witness for C2: a returned proposal against a one-command history has
ratio ≤ 0.7 versus that command, and the concrete rejection step for an
exact echo of an executed command. -/
theorem claim_C2_witness :
    (isCommandSimilar (getNextP (exAnalyzer 10) exCtx [exHist1]
          [some "NEXT_COMMAND: lsof +L1\nEXPLANATION: deleted open files"]).1.command.data
        (([exHist1].filter (fun h => h.executed)).map (fun h => h.command.data)) = false ∧
      ∀ item ∈ [exHist1], item.executed = true →
        seqRatio (pyNorm (getNextP (exAnalyzer 10) exCtx [exHist1]
              [some "NEXT_COMMAND: lsof +L1\nEXPLANATION: deleted open files"]).1.command.data)
            (pyNorm item.command.data) ≤ 7 / 10) ∧
    getNextAuxP (exAnalyzer 10) ["df -h"] 1 [] [some exProp] 1
      = getNextAuxP (exAnalyzer 10) ["df -h"] 1
          ([] ++
            [{ role := Role.assistant,
               content := similarEchoContent (parseInteractiveResponse exProp) },
             { role := Role.user,
               content := similarRejectContent ["df -h"]
                 (parseInteractiveResponse exProp).command }])
          [] 0 := by
  constructor
  · exact claim_C2.1 (exAnalyzer 10) exCtx [exHist1]
      [some "NEXT_COMMAND: lsof +L1\nEXPLANATION: deleted open files"]
      (by decide) (by decide)
  · exact claim_C2.2 (exAnalyzer 10) ["df -h"] 1 0 [] exProp []
      (by decide) (by decide) (by decide)

/-- C3 (counterexample to the claim as stated): a parse failure is not
retried. With a malformed first reply and a well-formed second reply
available, `get_next_diagnostic_command` returns the parse failure at once
and the second reply is never consumed — no rejection message is fed back
for the format violation. -/
theorem claim_C3_counterexample :
    (get_next_diagnostic_command (exAnalyzer 0) exCtx []
        [some "garbage with no labels", some exProp]).success = false ∧
    (getNextP (exAnalyzer 0) exCtx []
        [some "garbage with no labels", some exProp]).2 = [some exProp] ∧
    (getNextP (exAnalyzer 0) exCtx []
        [some "garbage with no labels", some exProp]).1.error
      = some "Could not parse Ollama response" := by
  refine ⟨by decide, by decide, by decide⟩

/-- C3 (amended): a reply that parses to a failure makes
`get_next_diagnostic_command` return that failure immediately — one oracle
entry consumed, no feedback, no retry. The attempt budget of 3 (with
`exhaustedResult` on exhaustion) applies only to the retried categories:
premature conclusions and near-duplicate proposals. -/
theorem claim_C3 :
    (∀ (a : Analyzer) (ctx : ProblemContext) (history : List HistoryItem)
        (resp : String) (rest : List (Option String)),
      (parseInteractiveResponse resp).success = false →
      getNextP a ctx history (some resp :: rest) = (parseInteractiveResponse resp, rest)) ∧
    (∀ (a : Analyzer) (ctx : ProblemContext) (history : List HistoryItem)
        (oracle : List (Option String)),
      getNextP a ctx history oracle
        = getNextAuxP a
            ((history.filter (fun h => h.executed)).map (fun h => h.command))
            ((history.filter (fun h => h.executed)).map (fun h => h.command)).length
            (buildConversationMessages a ctx history) oracle 3) ∧
    (∀ (a : Analyzer) (exec : List String) (numExec : Nat) (msgs : List Message)
        (oracle : List (Option String)),
      (getNextAuxP a exec numExec msgs oracle 0).1 = exhaustedResult) := by
  refine ⟨?_, ?_, ?_⟩
  · intro a ctx history resp rest h
    exact getNextP_parse_fail a ctx history resp rest h
  · intro a ctx history oracle
    rfl
  · intro a exec numExec msgs oracle
    rfl

/-- Witness for C3: the immediate-return equation at a concrete malformed
reply with a pending well-formed one. -/
theorem claim_C3_witness :
    getNextP (exAnalyzer 3) exCtx [] [some "garbage", some exProp]
      = (parseInteractiveResponse "garbage", [some exProp]) :=
  claim_C3.1 (exAnalyzer 3) exCtx [] "garbage" [some exProp] (by decide)

/-- C4: every session performs at most 50 loop iterations, each making
exactly one LLM-recommendation request (`aiCalls = iterations`); a session
that runs out of iterations ends with exactly 50 iterations and the
"Reached maximum iterations" message, regardless of the LLM state. -/
theorem claim_C4 (cfg : DiagConfig) (ctx : ProblemContext) (llm : List (Option String))
    (human : List String) (chan : List ExecResult) :
    (process_alert cfg ctx llm human chan).iterations ≤ 50 ∧
    (process_alert cfg ctx llm human chan).aiCalls
      = (process_alert cfg ctx llm human chan).iterations ∧
    ((process_alert cfg ctx llm human chan).outcome = Outcome.ranOut →
      (process_alert cfg ctx llm human chan).iterations = 50 ∧
      (process_alert cfg ctx llm human chan).maxItersMessage = true) := by
  refine ⟨?_, ?_, ?_⟩
  · have h := processLoop_iterations_le cfg ctx maxIterations
      { history := [], llm := llm, human := human, chan := chan, iteration := 0 }
    simpa [process_alert, maxIterations] using h
  · have h := processLoop_aiCalls cfg ctx maxIterations
      { history := [], llm := llm, human := human, chan := chan, iteration := 0 }
    simp only [process_alert] at h ⊢
    omega
  · intro h
    have h2 := processLoop_ranOut cfg ctx maxIterations
      { history := [], llm := llm, human := human, chan := chan, iteration := 0 }
      (by simpa [process_alert] using h)
    simp only [process_alert] at h2 ⊢
    simpa [maxIterations] using h2

/-- Witness for C4: a session whose human rejects all 50 proposals runs out
at exactly 50 iterations with the max-iterations message. -/
theorem claim_C4_witness :
    (process_alert (exCfg 10) exCtx (List.replicate 50 (some "NEXT_COMMAND: a"))
        (List.replicate 50 "n") []).outcome = Outcome.ranOut ∧
    (process_alert (exCfg 10) exCtx (List.replicate 50 (some "NEXT_COMMAND: a"))
        (List.replicate 50 "n") []).iterations = 50 ∧
    (process_alert (exCfg 10) exCtx (List.replicate 50 (some "NEXT_COMMAND: a"))
        (List.replicate 50 "n") []).iterations ≤ 50 ∧
    (process_alert (exCfg 10) exCtx (List.replicate 50 (some "NEXT_COMMAND: a"))
        (List.replicate 50 "n") []).maxItersMessage = true := by
  have h := claim_C4 (exCfg 10) exCtx (List.replicate 50 (some "NEXT_COMMAND: a"))
    (List.replicate 50 "n") []
  have ho : (process_alert (exCfg 10) exCtx (List.replicate 50 (some "NEXT_COMMAND: a"))
      (List.replicate 50 "n") []).outcome = Outcome.ranOut := by decide
  exact ⟨ho, (h.2.2 ho).1, h.1, (h.2.2 ho).2⟩

/-- C5: a reply wholly wrapped in paired reasoning markers decodes to a
parse failure (success = false); a reply that opens with an unmatched
reasoning marker and never closes it is treated as reasoning that consumed
the entire reply and also decodes to a parse failure — never to a command
extracted from inside the reasoning text. -/
theorem claim_C5 :
    (∀ s : List Char, findCI closeMarker (s ++ closeMarker) = some s.length →
      parseInteractiveResponse (String.mk (openMarker ++ (s ++ closeMarker)))
          = failureResult "AI only provided reasoning without answer" [] ∧
        (parseInteractiveResponse (String.mk (openMarker ++ (s ++ closeMarker)))).success
          = false) ∧
    (∀ s : List Char, containsCI closeMarker (openMarker ++ s) = false →
      parseInteractiveResponse (String.mk (openMarker ++ s))
          = failureResult "AI only provided reasoning without answer" [] ∧
        (parseInteractiveResponse (String.mk (openMarker ++ s))).success = false) := by
  constructor
  · intro s h
    have hs : stripThink (openMarker ++ (s ++ closeMarker)) = [] := by
      rw [stripThink, stripClosed_wrapped s h]
      rfl
    have he : parseInteractiveResponse (String.mk (openMarker ++ (s ++ closeMarker)))
        = failureResult "AI only provided reasoning without answer" [] := by
      simp [parseInteractiveResponse, hs]
    exact ⟨he, by rw [he]; rfl⟩
  · intro s h
    have hs : stripThink (openMarker ++ s) = [] := by
      rw [stripThink, stripClosed_id _ h, stripUnclosed_open]
      rfl
    have he : parseInteractiveResponse (String.mk (openMarker ++ s))
        = failureResult "AI only provided reasoning without answer" [] := by
      simp [parseInteractiveResponse, hs]
    exact ⟨he, by rw [he]; rfl⟩

/-- Witness for C5: a wholly wrapped reply and an unclosed reply, each
containing command-shaped text inside the reasoning, both fail to parse. -/
theorem claim_C5_witness :
    (parseInteractiveResponse
        (String.mk (openMarker ++ ("I would run NEXT_COMMAND: df -h".data ++ closeMarker)))).success
      = false ∧
    (parseInteractiveResponse
        (String.mk (openMarker ++ "unclosed NEXT_COMMAND: rm -rf /tmp/x".data))).success
      = false := by
  constructor
  · exact (claim_C5.1 _ (by decide)).2
  · exact (claim_C5.2 _ (by decide)).2

/-- C6: the credential-injection policy passes a command through unmodified
when (i) it is not a MySQL-family command, (ii) it is one but already
carries a real (non-placeholder) inline password, or (iii) it needs
expansion but no credential set is mapped for the hostname — and in case
(iii) a warning naming the hostname is logged. -/
theorem claim_C6 :
    (∀ creds command hostname, cmdTypeOf command.data = none →
      (expandMysqlCommand creds command hostname).1 = command) ∧
    (∀ creds command hostname t, cmdTypeOf command.data = some t →
      containsPat realPwAt command.data = true →
      containsPat placeholderAt command.data = false →
      (expandMysqlCommand creds command hostname).1 = command) ∧
    (∀ cr command hostname t, cmdTypeOf command.data = some t →
      (containsPat realPwAt command.data && !containsPat placeholderAt command.data) = false →
      (containsPat placeholderAt command.data
        || (containsPat interactiveAt command.data && !containsPat dashPNonWsAt command.data)
        || containsPat pAtEndAt command.data
        || (containsPat standaloneAt command.data && !containsPat dashPNonWsAt command.data)) = true →
      (if containsSub "hbcsrv12".data hostname.data then cr.mysql_root else none) = none →
      (expandMysqlCommand (some cr) command hostname).1 = command ∧
        AuditEvent.mk AuditLevel.warning ("No MySQL credentials found for hostname: " ++ hostname)
          ∈ (expandMysqlCommand (some cr) command hostname).2) := by
  refine ⟨?_, ?_, ?_⟩
  · intro creds command hostname h
    cases creds with
    | none => rfl
    | some cr => simp [expandMysqlCommand, h]
  · intro creds command hostname t ht hreal hph
    cases creds with
    | none => rfl
    | some cr => simp [expandMysqlCommand, ht, hreal, hph]
  · intro cr command hostname t ht hreal hneeds hgate
    have hne : ¬((containsPat placeholderAt command.data
        || (containsPat interactiveAt command.data && !containsPat dashPNonWsAt command.data)
        || containsPat pAtEndAt command.data
        || (containsPat standaloneAt command.data && !containsPat dashPNonWsAt command.data)) = false) := by
      simp [hneeds]
    constructor
    · simp [expandMysqlCommand, ht, hreal, hne, hgate]
    · simp [expandMysqlCommand, ht, hreal, hne, hgate]

/-- Witness for C6 at concrete inputs: a non-MySQL command, a MySQL command
with a real inline password, and an interactive `-p` command on a host with
no mapped credentials. -/
theorem claim_C6_witness :
    (expandMysqlCommand
      (some { mysql_root := some { user := some "root", password := some "pw" } })
      "df -h" "hbcsrv12").1 = "df -h" ∧
    (expandMysqlCommand
      (some { mysql_root := some { user := some "root", password := some "pw" } })
      "mysql -u root -psecret123 -e \"SHOW TABLES\"" "hbcsrv12").1
      = "mysql -u root -psecret123 -e \"SHOW TABLES\"" ∧
    ((expandMysqlCommand
      (some { mysql_root := some { user := some "root", password := some "pw" } })
      "mysql -u root -p -e 'SELECT 1'" "hbcsrv13").1
      = "mysql -u root -p -e 'SELECT 1'" ∧
      AuditEvent.mk AuditLevel.warning "No MySQL credentials found for hostname: hbcsrv13"
        ∈ (expandMysqlCommand
            (some { mysql_root := some { user := some "root", password := some "pw" } })
            "mysql -u root -p -e 'SELECT 1'" "hbcsrv13").2) := by
  refine ⟨?_, ?_, ?_⟩
  · exact claim_C6.1 _ _ _ (by decide)
  · exact claim_C6.2.1 _ _ _ "mysql" (by decide) (by decide) (by decide)
  · exact claim_C6.2.2 _ _ _ "mysql" (by decide) (by decide) (by decide) (by decide)

/-- C7 (counterexample to the claim as stated): for a failed execution with
empty stdout the controller does not append the stdout field as the Command
Channel returned it — it overwrites it with a `Command failed: …` message
before appending. -/
theorem claim_C7_counterexample :
    (recordExecution "df -h" (some "hb01")
        { success := false, stdout := "", stderr := "err", exit_code := 1,
          error_message := some "Exit code: 1" }).stdout
      = some "Command failed: Exit code: 1" ∧
    (recordExecution "df -h" (some "hb01")
        { success := false, stdout := "", stderr := "err", exit_code := 1,
          error_message := some "Exit code: 1" }).stdout ≠ some "" := by
  constructor
  · rfl
  · decide

/-- C7 (amended): the appended turn carries the execution result's `stderr`,
`exit_code` and `success` exactly as returned; `stdout` is also appended
exactly as returned except when the execution failed with empty stdout, in
which case the controller overwrites it with a `Command failed: <error>`
message before appending. -/
theorem claim_C7 (command : String) (target : Option String) (r : ExecResult) :
    (recordExecution command target r).executed = true ∧
    (recordExecution command target r).command = command ∧
    (recordExecution command target r).target_host = target ∧
    (recordExecution command target r).stderr = some r.stderr ∧
    (recordExecution command target r).exit_code = some r.exit_code ∧
    (recordExecution command target r).success = some r.success ∧
    (r.success = true → (recordExecution command target r).stdout = some r.stdout) ∧
    (r.stdout ≠ "" → (recordExecution command target r).stdout = some r.stdout) ∧
    (r.success = false → r.stdout = "" →
      (recordExecution command target r).stdout
        = some ("Command failed: " ++
            (match r.error_message with | some m => m | none => "None"))) := by
  refine ⟨rfl, rfl, rfl, rfl, rfl, rfl, ?_, ?_, ?_⟩
  · intro h
    simp [recordExecution, h]
  · intro h
    simp [recordExecution, h]
  · intro h1 h2
    simp [recordExecution, h1, h2]

/-- Witness for C7 (amended) at a successful and a failed concrete result. -/
theorem claim_C7_witness :
    (recordExecution "du -sh /var" (some "hb01")
        { success := true, stdout := "1G\t/var", stderr := "", exit_code := 0,
          error_message := none }).stdout = some "1G\t/var" ∧
    (recordExecution "du -sh /var" (some "hb01")
        { success := false, stdout := "", stderr := "", exit_code := -1,
          error_message := some "Command timed out after 120 seconds" }).stdout
      = some "Command failed: Command timed out after 120 seconds" := by
  constructor
  · exact (claim_C7 "du -sh /var" (some "hb01") _).2.2.2.2.2.2.1 rfl
  · exact (claim_C7 "du -sh /var" (some "hb01") _).2.2.2.2.2.2.2.2 rfl rfl

/-- C8: when the human rejects a proposed command the controller continues
the loop with a turn appended whose `executed` flag is false (the command
channel is not consumed: `chan` is passed on unchanged and no
`recordExecution` happens), and the executed-turn count used by the
minimum-evidence check and prompt building is unchanged by the rejected
turn. -/
theorem claim_C8 (cfg : DiagConfig) (ctx : ProblemContext) (st : DiagState) (fuel : Nat)
    (hsucc : (getNextP cfg.ai ctx st.history st.llm).1.success = true)
    (hdone : (getNextP cfg.ai ctx st.history st.llm).1.done = false)
    (hcmd : (getNextP cfg.ai ctx st.history st.llm).1.command ≠ "")
    (hq : normInput (st.human.headD "") ≠ "q")
    (hs : normInput (st.human.headD "") ≠ "s")
    (hy : normInput (st.human.headD "") ≠ "y") :
    (processLoop cfg ctx st (fuel + 1)
        = (let res := processLoop cfg ctx
             { history := st.history ++
                 [rejectedTurn (getNextP cfg.ai ctx st.history st.llm).1.command
                   (resolveTarget cfg.infraHosts ctx.hostname
                     (getNextP cfg.ai ctx st.history st.llm).1.target_host)],
               llm := (getNextP cfg.ai ctx st.history st.llm).2,
               human := st.human.tail, chan := st.chan,
               iteration := st.iteration + 1 } fuel
           { res with aiCalls := res.aiCalls + 1 })) ∧
    (rejectedTurn (getNextP cfg.ai ctx st.history st.llm).1.command
        (resolveTarget cfg.infraHosts ctx.hostname
          (getNextP cfg.ai ctx st.history st.llm).1.target_host)).executed = false ∧
    executedCount (st.history ++
        [rejectedTurn (getNextP cfg.ai ctx st.history st.llm).1.command
          (resolveTarget cfg.infraHosts ctx.hostname
            (getNextP cfg.ai ctx st.history st.llm).1.target_host)])
      = executedCount st.history := by
  refine ⟨?_, rfl, ?_⟩
  · simp only [processLoop]
    rw [if_neg (by simp [hsucc]), if_neg (by simp [hdone]), if_neg hcmd, if_neg hq, if_neg hs,
      if_pos hy]
  · simp [executedCount, rejectedTurn, List.filter_append]

/-- Witness for C8: the concrete rejection step for a pending proposal with
the human answering `n`. -/
theorem claim_C8_witness :
    (processLoop (exCfg 10) exCtx exStC8 1
        = (let res := processLoop (exCfg 10) exCtx
             { history := exStC8.history ++
                 [rejectedTurn (getNextP (exCfg 10).ai exCtx exStC8.history exStC8.llm).1.command
                   (resolveTarget (exCfg 10).infraHosts exCtx.hostname
                     (getNextP (exCfg 10).ai exCtx exStC8.history exStC8.llm).1.target_host)],
               llm := (getNextP (exCfg 10).ai exCtx exStC8.history exStC8.llm).2,
               human := exStC8.human.tail, chan := exStC8.chan,
               iteration := exStC8.iteration + 1 } 0
           { res with aiCalls := res.aiCalls + 1 })) ∧
    (rejectedTurn (getNextP (exCfg 10).ai exCtx exStC8.history exStC8.llm).1.command
        (resolveTarget (exCfg 10).infraHosts exCtx.hostname
          (getNextP (exCfg 10).ai exCtx exStC8.history exStC8.llm).1.target_host)).executed
      = false ∧
    executedCount (exStC8.history ++
        [rejectedTurn (getNextP (exCfg 10).ai exCtx exStC8.history exStC8.llm).1.command
          (resolveTarget (exCfg 10).infraHosts exCtx.hostname
            (getNextP (exCfg 10).ai exCtx exStC8.history exStC8.llm).1.target_host)])
      = executedCount exStC8.history :=
  claim_C8 (exCfg 10) exCtx exStC8 0 (by decide) (by decide) (by decide) (by decide)
    (by decide) (by decide)

/-- C9: prompt construction is a pure, deterministic function of the problem
context, the history, and only the `infrastructure` and
`min_commands_required` configuration fields (no timestamps or other
run-dependent analyzer state — `model`, `api_key` and `timeout` do not
influence the messages); and the executed history entries appear in the
message list in their original order, via the order-preserving
filter/decomposition below. -/
theorem claim_C9 (a1 a2 : Analyzer) (ctx : ProblemContext) (history : List HistoryItem)
    (h1 : a1.infrastructure = a2.infrastructure)
    (h2 : a1.min_commands_required = a2.min_commands_required) :
    buildConversationMessages a1 ctx history = buildConversationMessages a2 ctx history ∧
    buildConversationMessages a1 ctx history
      = { role := Role.system, content := systemContent a1 } ::
          ((history.filter (fun x => x.executed)).bind
              (fun i => [userExecMsg i, assistResultMsg i]) ++
            [{ role := Role.user,
               content := currentPrompt a1 ctx
                 ((history.filter (fun x => x.executed)).map mkCmdInfo)
                 (history.filter (fun x => x.executed)).length }]) :=
  ⟨buildMessages_frame a1 a2 ctx history h1 h2, buildMessages_decomp a1 ctx history⟩

/-- Witness for C9: two analyzers differing in `model`, `api_key` and
`timeout` build identical messages over a one-turn history, and the
decomposition holds there. -/
theorem claim_C9_witness :
    buildConversationMessages (exAnalyzer 5) exCtx [exHist1]
        = buildConversationMessages
            { infrastructure := "INFRA", min_commands_required := 5, model := "other",
              api_key := "k", timeout := 1 } exCtx [exHist1] ∧
    buildConversationMessages (exAnalyzer 5) exCtx [exHist1]
      = { role := Role.system, content := systemContent (exAnalyzer 5) } ::
          (([exHist1].filter (fun x => x.executed)).bind
              (fun i => [userExecMsg i, assistResultMsg i]) ++
            [{ role := Role.user,
               content := currentPrompt (exAnalyzer 5) exCtx
                 (([exHist1].filter (fun x => x.executed)).map mkCmdInfo)
                 ([exHist1].filter (fun x => x.executed)).length }]) :=
  claim_C9 (exAnalyzer 5)
    { infrastructure := "INFRA", min_commands_required := 5, model := "other",
      api_key := "k", timeout := 1 } exCtx [exHist1] rfl rfl

/-- C10: credential injection is gated on the hostname containing the
hardcoded substring `hbcsrv12`; any other host gets the original command
back unmodified, whatever the command; and when the gate passes, the
`[mysql_root]` section is the one selected (witnessed by the audit event
naming it) on the expansion path. -/
theorem claim_C10 :
    (∀ creds command hostname, containsSub "hbcsrv12".data hostname.data = false →
      (expandMysqlCommand creds command hostname).1 = command) ∧
    (∀ cr sec command hostname t, containsSub "hbcsrv12".data hostname.data = true →
      cr.mysql_root = some sec →
      cmdTypeOf command.data = some t →
      (containsPat realPwAt command.data && !containsPat placeholderAt command.data) = false →
      (containsPat placeholderAt command.data
        || (containsPat interactiveAt command.data && !containsPat dashPNonWsAt command.data)
        || containsPat pAtEndAt command.data
        || (containsPat standaloneAt command.data && !containsPat dashPNonWsAt command.data)) = true →
      AuditEvent.mk AuditLevel.debug ("Using credentials from [mysql_root] for " ++ hostname)
        ∈ (expandMysqlCommand (some cr) command hostname).2) := by
  constructor
  · intro creds command hostname h
    cases creds with
    | none => rfl
    | some cr =>
      cases ht : cmdTypeOf command.data with
      | none => simp [expandMysqlCommand, ht]
      | some t =>
        by_cases hreal : (containsPat realPwAt command.data
            && !containsPat placeholderAt command.data) = true
        · simp [expandMysqlCommand, ht, hreal]
        · rw [Bool.not_eq_true] at hreal
          by_cases hneeds : (containsPat placeholderAt command.data
              || (containsPat interactiveAt command.data && !containsPat dashPNonWsAt command.data)
              || containsPat pAtEndAt command.data
              || (containsPat standaloneAt command.data && !containsPat dashPNonWsAt command.data))
              = false
          · simp [expandMysqlCommand, ht, hreal, hneeds]
          · simp [expandMysqlCommand, ht, hreal, hneeds, h]
  · intro cr sec command hostname t hgate hsec ht hreal hneeds
    have hne : ¬((containsPat placeholderAt command.data
        || (containsPat interactiveAt command.data && !containsPat dashPNonWsAt command.data)
        || containsPat pAtEndAt command.data
        || (containsPat standaloneAt command.data && !containsPat dashPNonWsAt command.data)) = false) := by
      simp [hneeds]
    by_cases hpw : sec.password.getD "" = ""
    · simp [expandMysqlCommand, ht, hreal, hne, hgate, hsec, hpw]
    · simp [expandMysqlCommand, ht, hreal, hne, hgate, hsec, hpw]

/-- Witness for C10: a placeholder MySQL command on `hbcsrv13` is returned
unchanged, and the same command on `hbcsrv12` selects `[mysql_root]`. -/
theorem claim_C10_witness :
    (expandMysqlCommand
      (some { mysql_root := some { user := some "root", password := some "pw" } })
      "mysql -u root -p'password' -e \"SELECT 1\"" "hbcsrv13.internal.boehmecke.org").1
      = "mysql -u root -p'password' -e \"SELECT 1\"" ∧
    AuditEvent.mk AuditLevel.debug
        "Using credentials from [mysql_root] for hbcsrv12.internal.boehmecke.org"
      ∈ (expandMysqlCommand
          (some { mysql_root := some { user := some "root", password := some "pw" } })
          "mysql -u root -p'password' -e \"SELECT 1\"" "hbcsrv12.internal.boehmecke.org").2 := by
  constructor
  · exact claim_C10.1 _ _ _ (by decide)
  · exact claim_C10.2 _ { user := some "root", password := some "pw" } _ _ "mysql"
      (by decide) rfl (by decide) (by decide) (by decide)

end Hbai
